/-
Verification development for the superlenz-mcp verification core.

This file gives a shallow embedding, in Lean 4, of the three algorithmic
components of the repository:

  * `src/verification/CredibilityCalculator.ts` (class CredibilityCalculator),
  * the ConflictResolver class (same file, second compilation unit),
  * `src/verification/VerificationEngine.ts` (class VerificationEngine),

and proves theorems about the embedded definitions.

Modelling conventions:
  * JavaScript numbers are embedded as `ℚ`.  All numeric literals of the
    source (0.2, 0.65, 1.2, ...) are exact decimal fractions, so rational
    arithmetic reproduces the intended comparisons; the one square root in
    the source (`calculateCV`) is eliminated by an exact algebraic
    reformulation, documented at `cvExceedsHalf`.
  * Strings are Lean `String`s; the case-insensitive substring tests of the
    source (`text.toLowerCase().includes(kw)`) are embedded over `List Char`
    with ASCII lowercasing (all keywords of the source are ASCII).
  * `Map<string, T>` is embedded as an insertion-ordered association list
    with JavaScript `Map` semantics (`set` replaces in place, else appends).
  * The optional LLM oracle of rounds 9 and 10 is an explicit parameter:
    `none` covers both "no API key" and "request failed" (the code treats
    them identically), `some` carries the parsed response.
  * Free-running narrative strings (the long `resolution` /
    `userNotification` report texts, `breakdown`), `nanoid()` ids and
    `new Date()` timestamps are not modelled: no statement below concerns
    them.  Branch identity is captured by the short `strategy` /
    `resolution` literals that the source assigns.
-/
import Mathlib

/-! ## String helpers (embedding of the JS string operations used) -/

/-- ASCII lowercasing of a string, as a character list.  Embeds
`s.toLowerCase()` (all characters the source compares against are ASCII). -/
def lowerChars (s : String) : List Char :=
  s.toList.map Char.toLower

/-- `isPrefixSeq needle hay` : `needle` is a prefix of `hay` (Bool). -/
def isPrefixSeq : List Char → List Char → Bool
  | [], _ => true
  | _ :: _, [] => false
  | a :: as, b :: bs => a == b && isPrefixSeq as bs

/-- `containsSeq needle hay` : `needle` occurs contiguously in `hay`.
Embeds JavaScript `hay.includes(needle)`. -/
def containsSeq (needle : List Char) : List Char → Bool
  | [] => needle.isEmpty
  | c :: rest => isPrefixSeq needle (c :: rest) || containsSeq needle rest

/-- `text.toLowerCase().includes(kw)` for an (ASCII, already lower-case)
keyword `kw`. -/
def includesLower (text : String) (kw : String) : Bool :=
  containsSeq kw.toList (lowerChars text)

/-- A JS `\w` word character: `[A-Za-z0-9_]`. -/
def isWordChar (c : Char) : Bool :=
  c.isAlphanum || c == '_'

/-- Maximal runs of word characters of a character list.  The source
tokenizer replaces every `[^\w\s]` character by a space and splits on
`\s+`; since each non-word character is either whitespace (split on) or
replaced by a space (then split on), the resulting nonempty tokens are
exactly the maximal `\w` runs. -/
def wordRuns : List Char → List (List Char)
  | [] => []
  | c :: rest =>
    if isWordChar c then
      match wordRuns rest with
      | [] => [[c]]
      | r :: rs =>
        -- glue `c` onto the run that starts at the very next position,
        -- if the next character is also a word character
        match rest with
        | [] => [[c]]
        | d :: _ => if isWordChar d then (c :: r) :: rs else [c] :: r :: rs
    else
      wordRuns rest

/-- Embeds `VerificationEngine.tokenize`: lower-case, strip punctuation,
split, keep tokens of length > 2, collect into a `Set`.  The set is
represented by a duplicate-free list; only membership and cardinality of
the result are ever consumed. -/
def tokenize (text : String) : List (List Char) :=
  ((wordRuns (lowerChars text)).filter (fun w => w.length > 2)).dedup

/-- Embeds `VerificationEngine.computeKeywordOverlap` (Jaccard-like token
overlap, 0..1). -/
def computeKeywordOverlap (textA textB : String) : ℚ :=
  let wordsA := tokenize textA
  let wordsB := tokenize textB
  if wordsA.length = 0 ∨ wordsB.length = 0 then 0
  else
    let intersection := (wordsA.filter (fun w => wordsB.contains w)).length
    let union := ((wordsA ++ wordsB).dedup).length
    if union > 0 then (intersection : ℚ) / (union : ℚ) else 0

/-- First match of the regex `/20\d{2}/` in a character list, scanning left
to right, advancing one character on failure. -/
def firstYearMatch : List Char → Option (List Char)
  | [] => none
  | c :: rest =>
    match c :: rest with
    | '2' :: '0' :: a :: b :: _ =>
      if a.isDigit && b.isDigit then some ['2', '0', a, b] else firstYearMatch rest
    | _ => firstYearMatch rest

/-! Embedding of the global regex `/\d+(?:,\d{3})*(?:\.\d+)?/g` used by
`extractNumericalValues`, together with `parseFloat` after comma removal. -/

/-- Maximal digit prefix of a character list, and the remainder. -/
def takeDigits : List Char → List Char × List Char
  | [] => ([], [])
  | c :: rest =>
    if c.isDigit then
      let (ds, r) := takeDigits rest
      (c :: ds, r)
    else ([], c :: rest)

/-- Consume `(,\d{3})*` greedily: comma-separated groups of exactly three
digits. -/
def takeCommaGroups : ℕ → List Char → List Char × List Char
  | 0, l => ([], l)
  | fuel + 1, l =>
    match l with
    | ',' :: a :: b :: c :: rest =>
      if a.isDigit && b.isDigit && c.isDigit then
        let (m, r) := takeCommaGroups fuel rest
        (',' :: a :: b :: c :: m, r)
      else ([], l)
    | _ => ([], l)

/-- Try to match `\d+(,\d{3})*(\.\d+)?` at the head of the list; on success
return the matched characters and the remainder. -/
def matchNumberAt (l : List Char) : Option (List Char × List Char) :=
  let (ds, r1) := takeDigits l
  if ds.isEmpty then none
  else
    let (gs, r2) := takeCommaGroups r1.length r1
    match r2 with
    | '.' :: d :: rest =>
      if d.isDigit then
        let (fs, r3) := takeDigits rest
        some (ds ++ gs ++ '.' :: d :: fs, r3)
      else some (ds ++ gs, r2)
    | _ => some (ds ++ gs, r2)

/-- Global scan: collect all non-overlapping matches left to right,
advancing one character where no match starts.  Fuelled by the input
length (each step consumes at least one character). -/
def scanNumbersAux : ℕ → List Char → List (List Char)
  | 0, _ => []
  | _ + 1, [] => []
  | fuel + 1, c :: rest =>
    match matchNumberAt (c :: rest) with
    | some (m, r) => m :: scanNumbersAux fuel r
    | none => scanNumbersAux fuel rest

def scanNumbers (l : List Char) : List (List Char) :=
  scanNumbersAux l.length l

/-- Digit characters to a natural number. -/
def digitsToNat (l : List Char) : ℕ :=
  l.foldl (fun a c => a * 10 + (c.toNat - 48)) 0

/-- `parseFloat(m.replace(/,/g, ''))` for a matched number token. -/
def parseNumberChars (l : List Char) : ℚ :=
  let l' := l.filter (fun c => c != ',')
  let ip := l'.takeWhile Char.isDigit
  match l'.dropWhile Char.isDigit with
  | '.' :: fr => (digitsToNat ip : ℚ) + (digitsToNat fr : ℚ) / (10 : ℚ) ^ fr.length
  | _ => (digitsToNat ip : ℚ)

/-! ## Data model (`src/core/types.ts`) -/

/-- `Source` of `src/core/types.ts`.  `publishedDate` is the epoch
timestamp in milliseconds (`Date.getTime()`).  Fields the verification
core never reads (`author`, `accessedDate`, `credibilityLevel`,
`metadata`) are omitted.  `type` is the runtime string of the
`SourceType` union. -/
structure Source where
  id : String
  url : String
  type : String
  title : String
  publishedDate : Option ℚ
  credibilityScore : ℚ
  citationCount : Option ℚ
deriving DecidableEq

/-- `Claim` of `src/core/types.ts`.  Fields the verification core never
reads (`topic`, `confidence`, `verificationStatus`, `metadata`) are
omitted. -/
structure Claim where
  id : String
  text : String
  extractedFrom : List String
deriving DecidableEq

/-- `Conflict` of `src/core/types.ts`.  `type` is the runtime string of
the `ConflictType` union (TypeScript erases the union, and the resolver's
`switch` has a default branch for other strings, so a plain `String` is
the faithful runtime model).  The `nanoid()` `id` and the free-text parts
of `resolution` are not modelled; `resolution` keeps the short literals
that round 8 assigns. -/
structure Conflict where
  type : String
  claims : List Claim
  sources : List Source
  resolutionStrategy : String
  resolved : Bool
  resolution : Option String
  confidence : ℚ
deriving DecidableEq

/-- `VerificationResult` of `src/core/types.ts` (timestamp omitted). -/
structure VerificationResult where
  round : ℕ
  claimsVerified : ℕ
  conflictsFound : ℕ
  averageConfidence : ℚ
  sources : List Source
  conflicts : List Conflict
deriving DecidableEq

/-- `VerifiedClaim` of `src/core/types.ts`.  The source spreads the claim
(`...data.claim`); here the claim is nested. -/
structure VerifiedClaim where
  claim : Claim
  verificationStatus : String
  verificationRounds : ℕ
  supportingSources : List Source
  contradictingSources : List Source
  finalConfidence : ℚ
deriving DecidableEq

/-- `ResolutionResult` of the ConflictResolver module.  The narrative
`resolution` / `userNotification` strings are not modelled; the updated
conflict is returned with `resolution := none`. -/
structure ResolutionResult where
  conflict : Conflict
  strategy : String
  resolved : Bool
  confidence : ℚ
deriving DecidableEq

/-! ## JavaScript `Map` model (insertion-ordered association list) -/

/-- `Map.get`: value at the key, if present. -/
def mapGet {α : Type} (m : List (String × α)) (k : String) : Option α :=
  (m.find? (fun p => p.1 == k)).map Prod.snd

/-- `Map.set`: replace in place if the key is present, else append. -/
def mapSet {α : Type} (m : List (String × α)) (k : String) (v : α) :
    List (String × α) :=
  if m.any (fun p => p.1 == k) then
    m.map (fun p => if p.1 == k then (k, v) else p)
  else m ++ [(k, v)]

/-! ## ConflictResolver (second unit of `CredibilityCalculator.ts`) -/

namespace ConflictResolver

/-- `Math.max(...xs)` over a list; `none` models the `-Infinity` of the
empty spread (no `ℚ` value is below every rational, so emptiness is kept
explicit; every comparison the source performs against the empty-list
value is `false`, which the callers reproduce). -/
def listMax : List ℚ → Option ℚ
  | [] => none
  | x :: xs => some (xs.foldl max x)

/-- `Math.min(...xs)` over a list (`none` models `Infinity`). -/
def listMin : List ℚ → Option ℚ
  | [] => none
  | x :: xs => some (xs.foldl min x)

/-- The guard `credibilityDiff > 0.2` of `resolveTrueContradiction`.
On an empty source list the source computes
`Math.max() - Math.min() = -Infinity > 0.2 = false`; the `none` branch
reproduces that `false`. -/
def credSpreadExceeds (sources : List Source) : Bool :=
  let credibilities := sources.map (fun s => s.credibilityScore)
  match listMax credibilities, listMin credibilities with
  | some maxC, some minC => maxC - minC > 1 / 5
  | _, _ => false

/-- `resolveScopeDifference` (branch data only; the narrative resolution
text is not modelled). -/
def resolveScopeDifference (conflict : Conflict) : ResolutionResult :=
  { conflict := { conflict with resolved := true, resolution := none }
    strategy := "Clarify scope and present all values with context"
    resolved := true
    confidence := 9 / 10 }

/-- `resolveTemporalDifference`.  The source indexes `temporalClaims[0]`
and reads `.year` on it, so an empty claim list is a runtime `TypeError`;
`none` models that crash. -/
def resolveTemporalDifference (conflict : Conflict) : Option ResolutionResult :=
  match conflict.claims with
  | [] => none
  | _ :: _ =>
    some
      { conflict := { conflict with resolved := true, resolution := none }
        strategy := "Use most recent data with time-series context"
        resolved := true
        confidence := 17 / 20 }

/-- `resolveStatisticalMethod`. -/
def resolveStatisticalMethod (conflict : Conflict) : ResolutionResult :=
  { conflict := { conflict with resolved := true, resolution := none }
    strategy := "Present all statistical measures with methodology notes"
    resolved := true
    confidence := 22 / 25 }

/-- `resolveMeasurementUnit`. -/
def resolveMeasurementUnit (conflict : Conflict) : ResolutionResult :=
  { conflict := { conflict with resolved := true, resolution := none }
    strategy := "Clarify measurement basis and present all with context"
    resolved := true
    confidence := 87 / 100 }

/-- `resolveTrueContradiction`.  In the high-spread branch the source
asserts `conflict.sources.find(s => s.credibilityScore === maxCredibility)!`
non-null; `none` models the crash that a failed lookup would be (it is
proved unreachable below: the maximum of a nonempty list is attained). -/
def resolveTrueContradiction (conflict : Conflict) : Option ResolutionResult :=
  if credSpreadExceeds conflict.sources then
    match
      listMax (conflict.sources.map (fun s => s.credibilityScore)) with
    | none => none
    | some maxCredibility =>
      match conflict.sources.find? (fun s => s.credibilityScore == maxCredibility) with
      | none => none
      | some _mostCredibleSource =>
        some
          { conflict := { conflict with resolved := true, resolution := none }
            strategy := "Trust higher credibility source with alternatives noted"
            resolved := true
            confidence := 7 / 10 }
  else
    some
      { conflict := { conflict with resolved := true, resolution := none }
        strategy := "Present multiple perspectives with equal weight"
        resolved := true
        confidence := 13 / 20 }

/-- `resolveDefault` (unknown conflict type). -/
def resolveDefault (conflict : Conflict) : ResolutionResult :=
  { conflict := { conflict with resolved := false, resolution := none }
    strategy := "Manual review required"
    resolved := false
    confidence := 1 / 2 }

/-- `ConflictResolver.resolve`: dispatch on the runtime type string.
`none` models the runtime crashes noted on the individual strategies. -/
def resolve (conflict : Conflict) : Option ResolutionResult :=
  if conflict.type == "SCOPE_DIFFERENCE" then
    some (resolveScopeDifference conflict)
  else if conflict.type == "TEMPORAL_DIFFERENCE" then
    resolveTemporalDifference conflict
  else if conflict.type == "STATISTICAL_METHOD" then
    some (resolveStatisticalMethod conflict)
  else if conflict.type == "MEASUREMENT_UNIT" then
    some (resolveMeasurementUnit conflict)
  else if conflict.type == "TRUE_CONTRADICTION" then
    resolveTrueContradiction conflict
  else
    some (resolveDefault conflict)

/-- `ConflictResolver.detectConflictType`: first match wins. -/
def detectConflictType (claims : List Claim) : String :=
  if claims.length < 2 then "TRUE_CONTRADICTION"
  else
    let scopeKeywords := ["only", "including", "excluding", "total", "average",
      "ceremony", "honeymoon"]
    if claims.any (fun c => scopeKeywords.any (fun kw => includesLower c.text kw)) then
      "SCOPE_DIFFERENCE"
    else
      let years := claims.filterMap (fun c => firstYearMatch c.text.toList)
      if years.length ≥ 2 ∧ years.dedup.length > 1 then
        "TEMPORAL_DIFFERENCE"
      else
        let statKeywords := ["average", "mean", "median", "mode", "percentile"]
        if claims.any (fun c => statKeywords.any (fun kw => includesLower c.text kw)) then
          "STATISTICAL_METHOD"
        else
          let measureKeywords := ["ranked", "rating", "score", "performance",
            "quality", "speed"]
          if claims.any (fun c => measureKeywords.any (fun kw => includesLower c.text kw)) then
            "MEASUREMENT_UNIT"
          else "TRUE_CONTRADICTION"

end ConflictResolver

/-! ## CredibilityCalculator (first unit of `CredibilityCalculator.ts`) -/

namespace CredibilityCalculator

/-- JavaScript numeric truthiness: a number is falsy exactly when it is
`0` (or `NaN`, which `ℚ` does not contain). -/
def jsTruthyNum (q : ℚ) : Bool :=
  q != 0

/-- `getAcademicCredibility`.  `now` is the current epoch time in
milliseconds (`Date.now()`).  The `if`/`else if` order of the source is
kept: the `> 1000` arm is dead code (any count above 1000 already took
the `> 100` arm). -/
def getAcademicCredibility (now : ℚ) (source : Source) : ℚ :=
  let score : ℚ := 9 / 10
  let score :=
    if (match source.citationCount with
        | some c => jsTruthyNum c && c > 100
        | none => false) then
      min 1 (score + 1 / 20)
    else if (match source.citationCount with
        | some c => jsTruthyNum c && c > 1000
        | none => false) then
      (1 : ℚ)
    else score
  let score :=
    match source.publishedDate with
    | some d =>
      let age := now - d
      let years := age / (365 * 24 * 60 * 60 * 1000)
      if years < 2 then min 1 (score + 1 / 50)
      else if years > 10 then max (4 / 5) (score - 1 / 20)
      else score
    | none => score
  min 1 score

/-- `getWebCredibility`: a truthy pre-calculated score wins; otherwise
domain heuristics on the lower-cased url. -/
def getWebCredibility (source : Source) : ℚ :=
  if jsTruthyNum source.credibilityScore then source.credibilityScore
  else
    let url := lowerChars source.url
    if containsSeq "gov.".toList url || containsSeq ".gov/".toList url then 9 / 10
    else if containsSeq "edu".toList url || containsSeq "university".toList url then 17 / 20
    else if containsSeq "nytimes".toList url || containsSeq "reuters".toList url ||
        containsSeq "bbc".toList url then 4 / 5
    else 3 / 5

/-- The per-source score of `calculateSourceCredibility` (the `switch` in
the `sources.map` callback). -/
def sourceTypeScore (now : ℚ) (source : Source) : ℚ :=
  if source.type == "academic" then getAcademicCredibility now source
  else if source.type == "web" then getWebCredibility source
  else if source.type == "user-provided" then
    (if jsTruthyNum source.credibilityScore then source.credibilityScore else 7 / 10)
  else 3 / 5

/-- `calculateSourceCredibility` (the 40%-weight factor). -/
def calculateSourceCredibility (now : ℚ) (sources : List Source) : ℚ :=
  if sources.length = 0 then 1 / 2
  else
    let scores := sources.map (sourceTypeScore now)
    scores.sum / (scores.length : ℚ)

end CredibilityCalculator

/-! ## VerificationEngine (`src/verification/VerificationEngine.ts`) -/

namespace VerificationEngine

/-- `VerificationConfig`. -/
structure VerificationConfig where
  minRounds : ℕ
  maxRounds : ℕ
  minSources : ℕ
  minConfidence : ℚ
  minAgreement : ℚ
  enableEarlyExit : Bool
deriving DecidableEq

/-- The constructor defaults. -/
def defaultConfig : VerificationConfig :=
  { minRounds := 10, maxRounds := 15, minSources := 5
    minConfidence := 17 / 20, minAgreement := 4 / 5, enableEarlyExit := true }

/-- `VerificationContext`. -/
structure VerificationContext where
  sessionId : String
  topic : String
  sources : List Source
  claims : List Claim
  round : ℕ
deriving DecidableEq

/-- `ClaimVerificationData` (private interface of the engine module). -/
structure ClaimVerificationData where
  claim : Claim
  supportingSources : List Source
  contradictingSources : List Source
  roundResults : List ℚ
deriving DecidableEq

/-- The `Map<string, ClaimVerificationData>` of `verify`. -/
abbrev CvMap := List (String × ClaimVerificationData)

/-- The claim-tracking initialisation loop of `verify` (a `Map.set` per
input claim: a repeated id overwrites the earlier record in place). -/
def initClaimVerifications (claims : List Claim) : CvMap :=
  claims.foldl (fun m c => mapSet m c.id ⟨c, [], [], []⟩) []

/-- `averageHistoryConfidence`. -/
def averageHistoryConfidence (history : List VerificationResult) : ℚ :=
  if history.length = 0 then 1 / 2
  else (history.map (fun r => r.averageConfidence)).sum / (history.length : ℚ)

/-- The body of the per-claim loop of `executeRound`: accumulator is
(claim map, totalConfidence, claimsProcessed). -/
def roundClaimStep (sourcesForRound : List Source) (acc : CvMap × ℚ × ℕ)
    (claim : Claim) : CvMap × ℚ × ℕ :=
  let (m, totalConfidence, claimsProcessed) := acc
  match mapGet m claim.id with
  | none => acc
  | some data =>
    let inner := sourcesForRound.foldl
      (fun (st : ℕ × ℚ × List Source) source =>
        let (matchCount, weightedScore, supporting) := st
        let overlap := computeKeywordOverlap claim.text source.title
        if overlap > 3 / 20 then
          (matchCount + 1, weightedScore + overlap * source.credibilityScore,
            if (supporting.find? (fun s => s.id == source.id)).isSome then supporting
            else supporting ++ [source])
        else st)
      (0, 0, data.supportingSources)
    let (matchCount, weightedScore, supporting) := inner
    let sourceRatio : ℚ :=
      if sourcesForRound.length > 0 then (matchCount : ℚ) / (sourcesForRound.length : ℚ)
      else 0
    let roundConfidence : ℚ :=
      if sourcesForRound.length > 0 then
        sourceRatio * (1 / 2) + (weightedScore / ((max matchCount 1 : ℕ) : ℚ)) * (1 / 2)
      else 3 / 10
    let data' := { data with
      supportingSources := supporting
      roundResults := data.roundResults ++ [min 1 roundConfidence] }
    (mapSet m claim.id data', totalConfidence + roundConfidence, claimsProcessed + 1)

/-- `executeRound` (rounds 1–4): keyword-overlap matching against the
first `round * 3` sources. -/
def executeRound (round : ℕ) (ctx : VerificationContext) (cv : CvMap) :
    VerificationResult × CvMap :=
  let sourcesForRound := ctx.sources.take (min ctx.sources.length (round * 3))
  let (cv', totalConfidence, claimsProcessed) :=
    ctx.claims.foldl (roundClaimStep sourcesForRound) (cv, 0, 0)
  let averageConfidence :=
    if claimsProcessed > 0 then totalConfidence / (claimsProcessed : ℚ) else 1 / 2
  ({ round := round, claimsVerified := ctx.claims.length, conflictsFound := 0
     averageConfidence := min 1 averageConfidence
     sources := sourcesForRound, conflicts := [] }, cv')

/-- `hasTemporalConflict`: both claim texts match `/20\d{2}/` and the
first matches differ. -/
def hasTemporalConflict (claim1 claim2 : Claim) : Bool :=
  match firstYearMatch claim1.text.toList, firstYearMatch claim2.text.toList with
  | some y1, some y2 => y1 != y2
  | _, _ => false

/-- The `i < j` double loop over a list, in source iteration order. -/
def orderedPairs {α : Type} : List α → List (α × α)
  | [] => []
  | x :: xs => xs.map (fun y => (x, y)) ++ orderedPairs xs

/-- `executeTemporalVerification` (round 5).  `history` is the engine's
`verificationHistory` at call time (rounds 1–4). -/
def executeTemporalVerification (ctx : VerificationContext)
    (history : List VerificationResult) : VerificationResult :=
  let conflicts := (orderedPairs ctx.claims).filterMap (fun p =>
    if hasTemporalConflict p.1 p.2 then
      some { type := "TEMPORAL_DIFFERENCE", claims := [p.1, p.2]
             sources := ctx.sources.filter (fun s =>
               p.1.extractedFrom.contains s.id || p.2.extractedFrom.contains s.id)
             resolutionStrategy := "Use most recent data with temporal context"
             resolved := false, resolution := none, confidence := 4 / 5 }
    else none)
  let avgPrior := averageHistoryConfidence history
  { round := 5, claimsVerified := ctx.claims.length
    conflictsFound := conflicts.length
    averageConfidence := min 1 (avgPrior + 1 / 50)
    sources := ctx.sources, conflicts := conflicts }

/-- `isNumericalClaim`: `/\d+/.test(text)`. -/
def isNumericalClaim (claim : Claim) : Bool :=
  claim.text.toList.any Char.isDigit

/-- `extractNumericalValues`. -/
def extractNumericalValues (claim : Claim) : List ℚ :=
  (scanNumbers claim.text.toList).map parseNumberChars

def listMean (vs : List ℚ) : ℚ := vs.sum / (vs.length : ℚ)

def listVariance (vs : List ℚ) : ℚ :=
  (vs.map (fun v => (v - listMean vs) ^ 2)).sum / (vs.length : ℚ)

/-- Decides `calculateCV(values) > 0.5` exactly.  The source computes
`cv = (mean !== 0) ? sqrt(variance)/mean : 0` and tests `cv > 0.5`.
Every value produced by `extractNumericalValues` is nonnegative (the
regex has no sign), so a nonzero mean is positive, and then
`sqrt(variance)/mean > 1/2 ↔ variance > mean²/4` (both sides of the
squared comparison are nonnegative).  For a zero mean the source's `cv`
is `0`, never `> 0.5`.  This removes the square root, which `ℚ` cannot
express. -/
def cvExceedsHalf (vs : List ℚ) : Bool :=
  let m := listMean vs
  m != 0 && listVariance vs > m ^ 2 / 4

/-- `executeStatisticalVerification` (round 6). -/
def executeStatisticalVerification (ctx : VerificationContext)
    (history : List VerificationResult) : VerificationResult :=
  let numericalClaims := ctx.claims.filter isNumericalClaim
  let conflicts := numericalClaims.filterMap (fun claim =>
    let values := extractNumericalValues claim
    if values.length ≥ 2 && cvExceedsHalf values then
      some { type := "STATISTICAL_METHOD", claims := [claim]
             sources := ctx.sources.filter (fun s => claim.extractedFrom.contains s.id)
             resolutionStrategy := "Report all values with methodology context"
             resolved := false, resolution := none, confidence := 7 / 10 }
    else none)
  let avgPrior := averageHistoryConfidence history
  { round := 6, claimsVerified := ctx.claims.length
    conflictsFound := conflicts.length
    averageConfidence := min 1 (avgPrior + 1 / 50)
    sources := ctx.sources, conflicts := conflicts }

/-- `hasScopeConflict`: both claims contain one of the engine's five
scope keywords. -/
def hasScopeConflict (claim1 claim2 : Claim) : Bool :=
  let scopeKeywords := ["only", "including", "excluding", "total", "average"]
  scopeKeywords.any (fun kw => includesLower claim1.text kw) &&
    scopeKeywords.any (fun kw => includesLower claim2.text kw)

/-- `executeScopeAnalysis` (round 7). -/
def executeScopeAnalysis (ctx : VerificationContext)
    (history : List VerificationResult) : VerificationResult :=
  let conflicts := (orderedPairs ctx.claims).filterMap (fun p =>
    if hasScopeConflict p.1 p.2 then
      some { type := "SCOPE_DIFFERENCE", claims := [p.1, p.2]
             sources := ctx.sources.filter (fun s =>
               p.1.extractedFrom.contains s.id || p.2.extractedFrom.contains s.id)
             resolutionStrategy := "Clarify scope and present both with context"
             resolved := false, resolution := none, confidence := 17 / 20 }
    else none)
  let avgPrior := averageHistoryConfidence history
  { round := 7, claimsVerified := ctx.claims.length
    conflictsFound := conflicts.length
    averageConfidence := min 1 (avgPrior + 1 / 100)
    sources := ctx.sources, conflicts := conflicts }

/-- The per-conflict `switch` body of round 8
(`executeConflictResolution`).  The `credibilityDiff > 0.2` guard is
textually the same `Math.max(...) - Math.min(...) > 0.2` expression as
the resolver's, so `ConflictResolver.credSpreadExceeds` is reused.  The
`switch` has no `default` case: an unknown type leaves the conflict
untouched. -/
def resolveConflictRound8 (conflict : Conflict) : Conflict :=
  if conflict.type == "SCOPE_DIFFERENCE" then
    { conflict with
      resolved := true
      resolution := some "Both values are correct for different scopes" }
  else if conflict.type == "TEMPORAL_DIFFERENCE" then
    { conflict with
      resolved := true
      resolution := some "Use most recent data with year context" }
  else if conflict.type == "STATISTICAL_METHOD" then
    { conflict with
      resolved := true
      resolution := some "Present multiple statistical measures" }
  else if conflict.type == "MEASUREMENT_UNIT" then
    { conflict with
      resolved := true
      resolution := some "Standardize units and note measurement basis" }
  else if conflict.type == "TRUE_CONTRADICTION" then
    if ConflictResolver.credSpreadExceeds conflict.sources then
      { conflict with
        resolved := true
        resolution := some "Trust higher credibility source" }
    else
      { conflict with
        resolved := false
        resolution := some "Multiple valid perspectives - present both" }
  else conflict

/-- `executeConflictResolution` (round 8): resolves each conflict in
place; returns the round result and the updated conflicts. -/
def executeConflictResolution (conflicts : List Conflict)
    (ctx : VerificationContext) (history : List VerificationResult) :
    VerificationResult × List Conflict :=
  let resolved := conflicts.map resolveConflictRound8
  let avgPrior := averageHistoryConfidence history
  ({ round := 8, claimsVerified := ctx.claims.length
     conflictsFound := resolved.length
     averageConfidence := min 1 (avgPrior + 1 / 50)
     sources := ctx.sources, conflicts := resolved }, resolved)

/-- One parsed element of the round-9 oracle response. -/
structure OracleAssessment where
  claimIndex : ℤ
  confidence : ℚ
deriving DecidableEq

/-- The per-record body of round 9's algorithmic fallback: append
`min(1, supportRatio * 1.2 + 0.3)` to the record's round history. -/
def expertFallbackRecord (ctx : VerificationContext)
    (data : ClaimVerificationData) : ClaimVerificationData :=
  let supportRatio : ℚ :=
    if ctx.sources.length > 0 then
      (data.supportingSources.length : ℚ) / (ctx.sources.length : ℚ)
    else 0
  { data with
    roundResults := data.roundResults ++ [min 1 (supportRatio * (6 / 5) + 3 / 10)] }

/-- The algorithmic fallback of round 9 over the whole claim map. -/
def expertFallbackUpdate (ctx : VerificationContext) (cv : CvMap) : CvMap :=
  cv.map (fun p => (p.1, expertFallbackRecord ctx p.2))

/-- Application of one oracle assessment (round 9, oracle path). -/
def applyAssessment (ctx : VerificationContext) (cv : CvMap)
    (a : OracleAssessment) : CvMap :=
  let idx := a.claimIndex - 1
  if 0 ≤ idx ∧ idx < ctx.claims.length then
    match ctx.claims.get? idx.toNat with
    | none => cv
    | some claim =>
      match mapGet cv claim.id with
      | none => cv
      | some data =>
        mapSet cv claim.id
          { data with roundResults := data.roundResults ++ [min 1 (max 0 a.confidence)] }
  else cv

/-- `executeExpertVerification` (round 9).  `oracle = none` covers both
"no `ANTHROPIC_API_KEY`" and a failed request (the source runs the same
fallback in both); `some assessments` is a successful request with its
parsed assessment array (empty when no JSON array was found — the source
still reports the `+0.03` confidence in that case). -/
def executeExpertVerification (ctx : VerificationContext) (cv : CvMap)
    (oracle : Option (List OracleAssessment))
    (history : List VerificationResult) : VerificationResult × CvMap :=
  match oracle with
  | none =>
    let cv' := expertFallbackUpdate ctx cv
    let avgPrior := averageHistoryConfidence history
    ({ round := 9, claimsVerified := ctx.claims.length, conflictsFound := 0
       averageConfidence := min 1 (avgPrior + 1 / 100)
       sources := ctx.sources, conflicts := [] }, cv')
  | some assessments =>
    let cv' := assessments.foldl (applyAssessment ctx) cv
    let avgPrior := averageHistoryConfidence history
    ({ round := 9, claimsVerified := ctx.claims.length, conflictsFound := 0
       averageConfidence := min 1 (avgPrior + 3 / 100)
       sources := ctx.sources, conflicts := [] }, cv')

/-- The weighted round average used by round 10's fallback and by
`buildVerifiedClaims`: weight `1 + 0.5 * i` for round index `i`. -/
def weightedRoundAverage (rs : List ℚ) : ℚ :=
  let ws := (List.range rs.length).map (fun i => 1 + (i : ℚ) * (1 / 2))
  (List.zipWith (fun a b => a * b) rs ws).sum / ws.sum

/-- The algorithmic consensus of round 10: mean of the per-claim weighted
averages over records with a nonempty round history (`0.5` if none). -/
def consensusConfidence (cv : CvMap) : ℚ :=
  let entries := cv.filter (fun p => p.2.roundResults.length > 0)
  if entries.length > 0 then
    (entries.map (fun p => weightedRoundAverage p.2.roundResults)).sum /
      (entries.length : ℚ)
  else 1 / 2

/-- `executeFinalConsensus` (round 10).  `oracle = some c` is a
successful oracle call whose response parsed to the number `c` (used only
when `0 ≤ c ≤ 1`, as in the source); `none` covers no key, a failed call
and an unparseable response. -/
def executeFinalConsensus (ctx : VerificationContext) (cv : CvMap)
    (oracle : Option ℚ) : VerificationResult :=
  let fallback : VerificationResult :=
    { round := 10, claimsVerified := ctx.claims.length, conflictsFound := 0
      averageConfidence := min 1 (consensusConfidence cv)
      sources := ctx.sources, conflicts := [] }
  match oracle with
  | some llmConfidence =>
    if 0 ≤ llmConfidence ∧ llmConfidence ≤ 1 then
      { round := 10, claimsVerified := ctx.claims.length, conflictsFound := 0
        averageConfidence := llmConfidence
        sources := ctx.sources, conflicts := [] }
    else fallback
  | none => fallback

/-- `buildVerifiedClaims`.  `history` is the final
`verificationHistory`, whose length the source stores in every
`verificationRounds` field. -/
def buildVerifiedClaims (cv : CvMap) (history : List VerificationResult) :
    List VerifiedClaim :=
  cv.map (fun p =>
    let data := p.2
    let finalConfidence :=
      if data.roundResults.length > 0 then weightedRoundAverage data.roundResults
      else 1 / 2
    let verificationStatus :=
      if finalConfidence ≥ 4 / 5 then "verified"
      else if finalConfidence ≥ 1 / 2 then "disputed"
      else "false"
    { claim := data.claim, verificationStatus := verificationStatus
      verificationRounds := history.length
      supportingSources := data.supportingSources
      contradictingSources := data.contradictingSources
      finalConfidence := min 1 finalConfidence })

/-- `calculateFinalConfidence`. -/
def calculateFinalConfidence (verifiedClaims : List VerifiedClaim) : ℚ :=
  if verifiedClaims.length = 0 then 0
  else (verifiedClaims.map (fun c => c.finalConfidence)).sum /
    (verifiedClaims.length : ℚ)

/-- The mutable state of one `verify` run: the pushed history, the
`currentRound` counter, the claim map and `allConflicts`.
`shouldContinue` is omitted: the source can only set it to `false` in
the early-exit check *after* round 10, where no later round reads it, so
it is `true` at every round guard. -/
structure EngineState where
  history : List VerificationResult
  currentRound : ℕ
  cv : CvMap
  allConflicts : List Conflict

/-- The `while (currentRound <= 4 && shouldContinue)` loop: exactly
rounds 1–4. -/
def rounds14 (ctx : VerificationContext) (cv0 : CvMap) :
    List VerificationResult × CvMap :=
  let (r1, cv1) := executeRound 1 ctx cv0
  let (r2, cv2) := executeRound 2 ctx cv1
  let (r3, cv3) := executeRound 3 ctx cv2
  let (r4, cv4) := executeRound 4 ctx cv3
  ([r1, r2, r3, r4], cv4)

/-- The round-5 block of `verify`. -/
def round5Step (config : VerificationConfig) (ctx : VerificationContext)
    (st : EngineState) : EngineState :=
  if st.currentRound ≤ config.maxRounds then
    let result := executeTemporalVerification ctx st.history
    { st with
      history := st.history ++ [result]
      allConflicts := st.allConflicts ++ result.conflicts
      currentRound := st.currentRound + 1 }
  else st

/-- The round-6 block of `verify`. -/
def round6Step (config : VerificationConfig) (ctx : VerificationContext)
    (st : EngineState) : EngineState :=
  if st.currentRound ≤ config.maxRounds then
    let result := executeStatisticalVerification ctx st.history
    { st with
      history := st.history ++ [result]
      allConflicts := st.allConflicts ++ result.conflicts
      currentRound := st.currentRound + 1 }
  else st

/-- The round-7 block of `verify`. -/
def round7Step (config : VerificationConfig) (ctx : VerificationContext)
    (st : EngineState) : EngineState :=
  if st.currentRound ≤ config.maxRounds then
    let result := executeScopeAnalysis ctx st.history
    { st with
      history := st.history ++ [result]
      allConflicts := st.allConflicts ++ result.conflicts
      currentRound := st.currentRound + 1 }
  else st

/-- The round-8 block of `verify`: runs only when conflicts were
collected.  The source resolves the `allConflicts` array in place, so the
state's conflicts are replaced by their resolved forms. -/
def round8Step (config : VerificationConfig) (ctx : VerificationContext)
    (st : EngineState) : EngineState :=
  if st.currentRound ≤ config.maxRounds ∧ st.allConflicts.length > 0 then
    let (result, resolved) := executeConflictResolution st.allConflicts ctx st.history
    { st with
      history := st.history ++ [result]
      allConflicts := resolved
      currentRound := st.currentRound + 1 }
  else st

/-- The round-9 block of `verify`. -/
def round9Step (config : VerificationConfig) (ctx : VerificationContext)
    (oracle : Option (List OracleAssessment)) (st : EngineState) : EngineState :=
  if st.currentRound ≤ config.maxRounds then
    let (result, cv') := executeExpertVerification ctx st.cv oracle st.history
    { st with
      history := st.history ++ [result]
      cv := cv'
      currentRound := st.currentRound + 1 }
  else st

/-- The round-10 block of `verify` (its guard does not read
`shouldContinue` even in the source). -/
def round10Step (config : VerificationConfig) (ctx : VerificationContext)
    (oracle : Option ℚ) (st : EngineState) : EngineState :=
  if st.currentRound ≤ config.maxRounds then
    let result := executeFinalConsensus ctx st.cv oracle
    { st with
      history := st.history ++ [result]
      currentRound := st.currentRound + 1 }
  else st

/-- The output record of `verify`. -/
structure VerifyOutput where
  verifiedClaims : List VerifiedClaim
  conflicts : List Conflict
  results : List VerificationResult
  finalConfidence : ℚ
  totalRounds : ℕ

/-- The engine state after the round-1–4 loop: history of the four round
results, `currentRound = 5`, no conflicts yet. -/
def stateAfterRounds14 (ctx : VerificationContext) : EngineState :=
  let r14 := rounds14 ctx (initClaimVerifications ctx.claims)
  ⟨r14.1, 5, r14.2, []⟩

/-- The engine state after all round blocks of one `verify` run. -/
def pipelineState (config : VerificationConfig) (ctx : VerificationContext)
    (oracle9 : Option (List OracleAssessment)) (oracle10 : Option ℚ) :
    EngineState :=
  round10Step config ctx oracle10
    (round9Step config ctx oracle9
      (round8Step config ctx
        (round7Step config ctx
          (round6Step config ctx
            (round5Step config ctx (stateAfterRounds14 ctx))))))

/-- `VerificationEngine.verify`, the full pipeline.  The early-exit check
between round 10 and the final assembly only logs: `shouldContinue` is
never read afterwards, so it does not appear here. -/
def verify (config : VerificationConfig) (ctx : VerificationContext)
    (oracle9 : Option (List OracleAssessment)) (oracle10 : Option ℚ) :
    VerifyOutput :=
  let st10 := pipelineState config ctx oracle9 oracle10
  let verifiedClaims := buildVerifiedClaims st10.cv st10.history
  let finalConfidence := calculateFinalConfidence verifiedClaims
  { verifiedClaims := verifiedClaims, conflicts := st10.allConflicts
    results := st10.history, finalConfidence := finalConfidence
    totalRounds := st10.currentRound - 1 }

end VerificationEngine

/-! ## Shared lemmas about the `Map` model -/

/-- The keys of an association-list map, in insertion order. -/
def mapKeys {α : Type} (m : List (String × α)) : List String :=
  m.map Prod.fst

lemma length_eq_mapKeys_length {α : Type} (m : List (String × α)) :
    m.length = (mapKeys m).length := by
  simp [mapKeys]

lemma any_key_iff_mem {α : Type} (m : List (String × α)) (k : String) :
    m.any (fun p => p.1 == k) = true ↔ k ∈ mapKeys m := by
  simp only [List.any_eq_true, beq_iff_eq, mapKeys, List.mem_map]

lemma mapKeys_mapSet {α : Type} (m : List (String × α)) (k : String) (v : α) :
    mapKeys (mapSet m k v) =
      if k ∈ mapKeys m then mapKeys m else mapKeys m ++ [k] := by
  by_cases h : k ∈ mapKeys m
  · rw [if_pos h]
    rw [mapSet, if_pos ((any_key_iff_mem m k).mpr h)]
    unfold mapKeys
    rw [List.map_map]
    apply List.map_congr_left
    intro p _
    by_cases hp : p.1 = k
    · simp [hp]
    · simp [hp]
  · rw [if_neg h]
    rw [mapSet, if_neg (by
      intro hc
      exact h ((any_key_iff_mem m k).mp hc))]
    simp [mapKeys]

lemma length_mapSet_of_mem {α : Type} (m : List (String × α)) (k : String)
    (v : α) (h : k ∈ mapKeys m) : (mapSet m k v).length = m.length := by
  rw [mapSet, if_pos ((any_key_iff_mem m k).mpr h)]
  simp

lemma mapGet_isSome_iff_mem {α : Type} (m : List (String × α)) (k : String) :
    (mapGet m k).isSome ↔ k ∈ mapKeys m := by
  rw [← any_key_iff_mem]
  simp [mapGet, List.find?_isSome, List.any_eq_true]

lemma mapGet_map_snd {α β : Type} (m : List (String × α)) (g : α → β)
    (k : String) :
    mapGet (m.map (fun p => (p.1, g p.2))) k = (mapGet m k).map g := by
  induction m with
  | nil => rfl
  | cons p m ih =>
    by_cases h : p.1 = k
    · simp [mapGet, List.find?_cons, h]
    · simpa [mapGet, List.find?_cons, h] using ih

namespace VerificationEngine

lemma initFold_keys :
    ∀ (cs : List Claim) (m : CvMap), (mapKeys m).Nodup →
      (mapKeys (cs.foldl (fun m c => mapSet m c.id ⟨c, [], [], []⟩) m)).Nodup ∧
      (mapKeys (cs.foldl (fun m c => mapSet m c.id ⟨c, [], [], []⟩) m)).toFinset
        = (mapKeys m).toFinset ∪ (cs.map (fun c => c.id)).toFinset := by
  intro cs
  induction cs with
  | nil =>
    intro m h
    exact ⟨h, by simp⟩
  | cons c cs ih =>
    intro m h
    rw [List.foldl_cons]
    have hkeys := mapKeys_mapSet m c.id (⟨c, [], [], []⟩ : ClaimVerificationData)
    by_cases hm : c.id ∈ mapKeys m
    · rw [if_pos hm] at hkeys
      obtain ⟨h1, h2⟩ := ih (mapSet m c.id ⟨c, [], [], []⟩) (by rw [hkeys]; exact h)
      refine ⟨h1, ?_⟩
      rw [h2, hkeys]
      have : c.id ∈ (mapKeys m).toFinset := List.mem_toFinset.mpr hm
      simp [List.toFinset_cons, Finset.union_insert, Finset.insert_eq_self.mpr,
        Finset.mem_union.mpr (Or.inl this)]
    · rw [if_neg hm] at hkeys
      have hnodup : (mapKeys (mapSet m c.id ⟨c, [], [], []⟩)).Nodup := by
        rw [hkeys]
        rw [List.nodup_append]
        exact ⟨h, List.nodup_singleton _, by simpa using hm⟩
      obtain ⟨h1, h2⟩ := ih (mapSet m c.id ⟨c, [], [], []⟩) hnodup
      refine ⟨h1, ?_⟩
      rw [h2, hkeys]
      simp only [List.toFinset_append, List.toFinset_cons]
      ext a
      simp only [List.map_cons, List.toFinset_cons, Finset.mem_union,
        Finset.mem_insert, Finset.mem_singleton]
      tauto

lemma initClaimVerifications_length (claims : List Claim) :
    (initClaimVerifications claims).length
      = ((claims.map (fun c => c.id)).toFinset).card := by
  obtain ⟨h1, h2⟩ := initFold_keys claims [] (by simp [mapKeys])
  rw [initClaimVerifications]
  rw [length_eq_mapKeys_length]
  rw [← List.toFinset_card_of_nodup h1]
  rw [h2]
  simp [mapKeys]

end VerificationEngine

namespace VerificationEngine

lemma roundClaimStep_length (sourcesForRound : List Source)
    (acc : CvMap × ℚ × ℕ) (c : Claim) :
    ((roundClaimStep sourcesForRound acc c).1).length = acc.1.length := by
  obtain ⟨m, t, n⟩ := acc
  show ((roundClaimStep sourcesForRound (m, t, n) c).1).length = m.length
  rw [roundClaimStep]
  cases hget : mapGet m c.id with
  | none => simp
  | some d =>
    have hmem : c.id ∈ mapKeys m := by
      rw [← mapGet_isSome_iff_mem, hget]; rfl
    simp only []
    rw [length_mapSet_of_mem _ _ _ hmem]

lemma foldl_roundClaimStep_length (sourcesForRound : List Source) :
    ∀ (cs : List Claim) (acc : CvMap × ℚ × ℕ),
      ((cs.foldl (roundClaimStep sourcesForRound) acc).1).length = acc.1.length := by
  intro cs
  induction cs with
  | nil => intro acc; rfl
  | cons c cs ih =>
    intro acc
    rw [List.foldl_cons, ih, roundClaimStep_length]

lemma executeRound_cv_length (round : ℕ) (ctx : VerificationContext)
    (cv : CvMap) : ((executeRound round ctx cv).2).length = cv.length := by
  rw [show (executeRound round ctx cv).2
      = (ctx.claims.foldl
          (roundClaimStep (ctx.sources.take (min ctx.sources.length (round * 3))))
          (cv, 0, 0)).1 from rfl]
  rw [foldl_roundClaimStep_length]

lemma rounds14_cv_length (ctx : VerificationContext) (cv : CvMap) :
    ((rounds14 ctx cv).2).length = cv.length := by
  rw [show (rounds14 ctx cv).2
      = (executeRound 4 ctx (executeRound 3 ctx (executeRound 2 ctx
          (executeRound 1 ctx cv).2).2).2).2 from rfl]
  rw [executeRound_cv_length, executeRound_cv_length, executeRound_cv_length,
    executeRound_cv_length]

lemma expertFallbackUpdate_length (ctx : VerificationContext) (cv : CvMap) :
    (expertFallbackUpdate ctx cv).length = cv.length := by
  simp [expertFallbackUpdate]

lemma applyAssessment_length (ctx : VerificationContext) (cv : CvMap)
    (a : OracleAssessment) : (applyAssessment ctx cv a).length = cv.length := by
  rw [applyAssessment]
  split
  · cases hc : ctx.claims.get? (a.claimIndex - 1).toNat with
    | none => simp
    | some claim =>
      simp only []
      cases hget : mapGet cv claim.id with
      | none => rfl
      | some d =>
        have hmem : claim.id ∈ mapKeys cv := by
          rw [← mapGet_isSome_iff_mem, hget]; rfl
        simp only []
        rw [length_mapSet_of_mem _ _ _ hmem]
  · rfl

lemma foldl_applyAssessment_length (ctx : VerificationContext) :
    ∀ (as : List OracleAssessment) (cv : CvMap),
      (as.foldl (applyAssessment ctx) cv).length = cv.length := by
  intro as
  induction as with
  | nil => intro cv; rfl
  | cons a as ih =>
    intro cv
    rw [List.foldl_cons, ih, applyAssessment_length]

lemma executeExpertVerification_cv_length (ctx : VerificationContext)
    (cv : CvMap) (oracle : Option (List OracleAssessment))
    (history : List VerificationResult) :
    ((executeExpertVerification ctx cv oracle history).2).length = cv.length := by
  cases oracle with
  | none =>
    rw [show (executeExpertVerification ctx cv none history).2
        = expertFallbackUpdate ctx cv from rfl]
    exact expertFallbackUpdate_length ctx cv
  | some assessments =>
    rw [show (executeExpertVerification ctx cv (some assessments) history).2
        = assessments.foldl (applyAssessment ctx) cv from rfl]
    exact foldl_applyAssessment_length ctx assessments cv

end VerificationEngine

namespace VerificationEngine

lemma round5Step_cv (cfg : VerificationConfig) (ctx : VerificationContext)
    (st : EngineState) : (round5Step cfg ctx st).cv = st.cv := by
  rw [round5Step]; split <;> rfl

lemma round6Step_cv (cfg : VerificationConfig) (ctx : VerificationContext)
    (st : EngineState) : (round6Step cfg ctx st).cv = st.cv := by
  rw [round6Step]; split <;> rfl

lemma round7Step_cv (cfg : VerificationConfig) (ctx : VerificationContext)
    (st : EngineState) : (round7Step cfg ctx st).cv = st.cv := by
  rw [round7Step]; split <;> rfl

lemma round8Step_cv (cfg : VerificationConfig) (ctx : VerificationContext)
    (st : EngineState) : (round8Step cfg ctx st).cv = st.cv := by
  rw [round8Step]; split <;> rfl

lemma round9Step_cv_length (cfg : VerificationConfig) (ctx : VerificationContext)
    (oracle : Option (List OracleAssessment)) (st : EngineState) :
    (round9Step cfg ctx oracle st).cv.length = st.cv.length := by
  rw [round9Step]
  split
  · exact executeExpertVerification_cv_length ctx st.cv oracle st.history
  · rfl

lemma round10Step_cv (cfg : VerificationConfig) (ctx : VerificationContext)
    (oracle : Option ℚ) (st : EngineState) :
    (round10Step cfg ctx oracle st).cv = st.cv := by
  rw [round10Step]; split <;> rfl

lemma round5Step_inv (cfg : VerificationConfig) (ctx : VerificationContext)
    (st : EngineState) (h : st.currentRound = st.history.length + 1) :
    (round5Step cfg ctx st).currentRound = (round5Step cfg ctx st).history.length + 1 := by
  rw [round5Step]; split <;> simp [h]

lemma round6Step_inv (cfg : VerificationConfig) (ctx : VerificationContext)
    (st : EngineState) (h : st.currentRound = st.history.length + 1) :
    (round6Step cfg ctx st).currentRound = (round6Step cfg ctx st).history.length + 1 := by
  rw [round6Step]; split <;> simp [h]

lemma round7Step_inv (cfg : VerificationConfig) (ctx : VerificationContext)
    (st : EngineState) (h : st.currentRound = st.history.length + 1) :
    (round7Step cfg ctx st).currentRound = (round7Step cfg ctx st).history.length + 1 := by
  rw [round7Step]; split <;> simp [h]

lemma round8Step_inv (cfg : VerificationConfig) (ctx : VerificationContext)
    (st : EngineState) (h : st.currentRound = st.history.length + 1) :
    (round8Step cfg ctx st).currentRound = (round8Step cfg ctx st).history.length + 1 := by
  rw [round8Step]; split <;> simp [h]

lemma round9Step_inv (cfg : VerificationConfig) (ctx : VerificationContext)
    (oracle : Option (List OracleAssessment)) (st : EngineState)
    (h : st.currentRound = st.history.length + 1) :
    (round9Step cfg ctx oracle st).currentRound
      = (round9Step cfg ctx oracle st).history.length + 1 := by
  rw [round9Step]; split <;> simp [h]

lemma round10Step_inv (cfg : VerificationConfig) (ctx : VerificationContext)
    (oracle : Option ℚ) (st : EngineState)
    (h : st.currentRound = st.history.length + 1) :
    (round10Step cfg ctx oracle st).currentRound
      = (round10Step cfg ctx oracle st).history.length + 1 := by
  rw [round10Step]; split <;> simp [h]

lemma stateAfterRounds14_inv (ctx : VerificationContext) :
    (stateAfterRounds14 ctx).currentRound
      = (stateAfterRounds14 ctx).history.length + 1 := rfl

lemma pipelineState_inv (cfg : VerificationConfig) (ctx : VerificationContext)
    (o9 : Option (List OracleAssessment)) (o10 : Option ℚ) :
    (pipelineState cfg ctx o9 o10).currentRound
      = (pipelineState cfg ctx o9 o10).history.length + 1 := by
  rw [pipelineState]
  exact round10Step_inv _ _ _ _ (round9Step_inv _ _ _ _ (round8Step_inv _ _ _
    (round7Step_inv _ _ _ (round6Step_inv _ _ _ (round5Step_inv _ _ _
      (stateAfterRounds14_inv ctx))))))

lemma pipelineState_cv_length (cfg : VerificationConfig)
    (ctx : VerificationContext) (o9 : Option (List OracleAssessment))
    (o10 : Option ℚ) :
    (pipelineState cfg ctx o9 o10).cv.length
      = ((ctx.claims.map (fun c => c.id)).toFinset).card := by
  rw [pipelineState]
  rw [round10Step_cv, round9Step_cv_length, round8Step_cv, round7Step_cv,
    round6Step_cv, round5Step_cv]
  rw [show (stateAfterRounds14 ctx).cv
      = (rounds14 ctx (initClaimVerifications ctx.claims)).2 from rfl]
  rw [rounds14_cv_length]
  exact initClaimVerifications_length ctx.claims

end VerificationEngine

namespace VerificationEngine

lemma round5Step_of_le (cfg : VerificationConfig) (ctx : VerificationContext)
    (st : EngineState) (h : st.currentRound ≤ cfg.maxRounds) :
    (round5Step cfg ctx st).history.length = st.history.length + 1 ∧
    (round5Step cfg ctx st).currentRound = st.currentRound + 1 ∧
    (round5Step cfg ctx st).allConflicts
      = st.allConflicts ++ (executeTemporalVerification ctx st.history).conflicts := by
  rw [round5Step, if_pos h]
  exact ⟨by simp, rfl, rfl⟩

lemma round6Step_of_le (cfg : VerificationConfig) (ctx : VerificationContext)
    (st : EngineState) (h : st.currentRound ≤ cfg.maxRounds) :
    (round6Step cfg ctx st).history.length = st.history.length + 1 ∧
    (round6Step cfg ctx st).currentRound = st.currentRound + 1 ∧
    (round6Step cfg ctx st).allConflicts
      = st.allConflicts ++ (executeStatisticalVerification ctx st.history).conflicts := by
  rw [round6Step, if_pos h]
  exact ⟨by simp, rfl, rfl⟩

lemma round7Step_of_le (cfg : VerificationConfig) (ctx : VerificationContext)
    (st : EngineState) (h : st.currentRound ≤ cfg.maxRounds) :
    (round7Step cfg ctx st).history.length = st.history.length + 1 ∧
    (round7Step cfg ctx st).currentRound = st.currentRound + 1 ∧
    (round7Step cfg ctx st).allConflicts
      = st.allConflicts ++ (executeScopeAnalysis ctx st.history).conflicts := by
  rw [round7Step, if_pos h]
  exact ⟨by simp, rfl, rfl⟩

lemma round8Step_of_empty (cfg : VerificationConfig) (ctx : VerificationContext)
    (st : EngineState) (h : st.allConflicts = []) :
    round8Step cfg ctx st = st := by
  rw [round8Step, if_neg]
  simp [h]

lemma round8Step_of_pos (cfg : VerificationConfig) (ctx : VerificationContext)
    (st : EngineState) (h1 : st.currentRound ≤ cfg.maxRounds)
    (h2 : st.allConflicts ≠ []) :
    (round8Step cfg ctx st).history.length = st.history.length + 1 ∧
    (round8Step cfg ctx st).currentRound = st.currentRound + 1 ∧
    (round8Step cfg ctx st).allConflicts
      = st.allConflicts.map resolveConflictRound8 := by
  rw [round8Step, if_pos ⟨h1, by
    cases hc : st.allConflicts with
    | nil => exact absurd hc h2
    | cons a l => simp [hc]⟩]
  exact ⟨by simp, rfl, rfl⟩

lemma round9Step_of_le (cfg : VerificationConfig) (ctx : VerificationContext)
    (oracle : Option (List OracleAssessment)) (st : EngineState)
    (h : st.currentRound ≤ cfg.maxRounds) :
    (round9Step cfg ctx oracle st).history.length = st.history.length + 1 ∧
    (round9Step cfg ctx oracle st).currentRound = st.currentRound + 1 ∧
    (round9Step cfg ctx oracle st).allConflicts = st.allConflicts := by
  rw [round9Step, if_pos h]
  exact ⟨by simp, rfl, rfl⟩

lemma round10Step_of_le (cfg : VerificationConfig) (ctx : VerificationContext)
    (oracle : Option ℚ) (st : EngineState)
    (h : st.currentRound ≤ cfg.maxRounds) :
    (round10Step cfg ctx oracle st).history.length = st.history.length + 1 ∧
    (round10Step cfg ctx oracle st).currentRound = st.currentRound + 1 ∧
    (round10Step cfg ctx oracle st).allConflicts = st.allConflicts := by
  rw [round10Step, if_pos h]
  exact ⟨by simp, rfl, rfl⟩

/-- One `verify` run with a `maxRounds` of at least 10 (in particular the
default 15) pushes exactly 9 round results when rounds 5–7 detect no
conflict — round 8 is skipped — and exactly 10 otherwise. -/
lemma pipelineState_results_count (cfg : VerificationConfig)
    (hmax : 10 ≤ cfg.maxRounds) (ctx : VerificationContext)
    (o9 : Option (List OracleAssessment)) (o10 : Option ℚ) :
    (pipelineState cfg ctx o9 o10).history.length
      = if (pipelineState cfg ctx o9 o10).allConflicts = [] then 9 else 10 := by
  have h0len : (stateAfterRounds14 ctx).history.length = 4 := rfl
  have h0cr : (stateAfterRounds14 ctx).currentRound = 5 := rfl
  have h0c : (stateAfterRounds14 ctx).allConflicts = [] := rfl
  rw [pipelineState]
  obtain ⟨h5len, h5cr, h5c⟩ :=
    round5Step_of_le cfg ctx (stateAfterRounds14 ctx) (by omega)
  set st5 := round5Step cfg ctx (stateAfterRounds14 ctx) with hst5
  obtain ⟨h6len, h6cr, h6c⟩ := round6Step_of_le cfg ctx st5 (by omega)
  set st6 := round6Step cfg ctx st5 with hst6
  obtain ⟨h7len, h7cr, h7c⟩ := round7Step_of_le cfg ctx st6 (by omega)
  set st7 := round7Step cfg ctx st6 with hst7
  by_cases hc : st7.allConflicts = []
  · have h8 : round8Step cfg ctx st7 = st7 := round8Step_of_empty cfg ctx st7 hc
    rw [h8]
    obtain ⟨h9len, h9cr, h9c⟩ := round9Step_of_le cfg ctx o9 st7 (by omega)
    set st9 := round9Step cfg ctx o9 st7 with hst9
    obtain ⟨h10len, h10cr, h10c⟩ := round10Step_of_le cfg ctx o10 st9 (by omega)
    rw [h10len, h9len, h7len, h6len, h5len, h0len, h10c, h9c, hc]
    simp
  · obtain ⟨h8len, h8cr, h8c⟩ := round8Step_of_pos cfg ctx st7 (by omega) hc
    set st8 := round8Step cfg ctx st7 with hst8
    obtain ⟨h9len, h9cr, h9c⟩ := round9Step_of_le cfg ctx o9 st8 (by omega)
    set st9 := round9Step cfg ctx o9 st8 with hst9
    obtain ⟨h10len, h10cr, h10c⟩ := round10Step_of_le cfg ctx o10 st9 (by omega)
    rw [h10len, h9len, h8len, h7len, h6len, h5len, h0len, h10c, h9c, h8c]
    rw [if_neg (by
      intro hnil
      exact hc (List.map_eq_nil_iff.mp hnil))]

end VerificationEngine

namespace VerificationEngine

lemma verify_results (cfg : VerificationConfig) (ctx : VerificationContext)
    (o9 : Option (List OracleAssessment)) (o10 : Option ℚ) :
    (verify cfg ctx o9 o10).results = (pipelineState cfg ctx o9 o10).history := rfl

lemma verify_totalRounds (cfg : VerificationConfig) (ctx : VerificationContext)
    (o9 : Option (List OracleAssessment)) (o10 : Option ℚ) :
    (verify cfg ctx o9 o10).totalRounds
      = (pipelineState cfg ctx o9 o10).currentRound - 1 := rfl

lemma verify_conflicts (cfg : VerificationConfig) (ctx : VerificationContext)
    (o9 : Option (List OracleAssessment)) (o10 : Option ℚ) :
    (verify cfg ctx o9 o10).conflicts
      = (pipelineState cfg ctx o9 o10).allConflicts := rfl

lemma verify_verifiedClaims (cfg : VerificationConfig)
    (ctx : VerificationContext) (o9 : Option (List OracleAssessment))
    (o10 : Option ℚ) :
    (verify cfg ctx o9 o10).verifiedClaims
      = buildVerifiedClaims (pipelineState cfg ctx o9 o10).cv
          (pipelineState cfg ctx o9 o10).history := rfl

lemma verify_finalConfidence (cfg : VerificationConfig)
    (ctx : VerificationContext) (o9 : Option (List OracleAssessment))
    (o10 : Option ℚ) :
    (verify cfg ctx o9 o10).finalConfidence
      = calculateFinalConfidence ((verify cfg ctx o9 o10).verifiedClaims) := by
  rw [verify]

/-- In every run, `verifiedClaims` has exactly one entry per distinct
input claim id. -/
lemma verify_verifiedClaims_length (cfg : VerificationConfig)
    (ctx : VerificationContext) (o9 : Option (List OracleAssessment))
    (o10 : Option ℚ) :
    (verify cfg ctx o9 o10).verifiedClaims.length
      = ((ctx.claims.map (fun c => c.id)).toFinset).card := by
  rw [verify_verifiedClaims, buildVerifiedClaims, List.length_map]
  exact pipelineState_cv_length cfg ctx o9 o10

lemma buildVerifiedClaims_verificationRounds (cv : CvMap)
    (history : List VerificationResult) (vc : VerifiedClaim)
    (h : vc ∈ buildVerifiedClaims cv history) :
    vc.verificationRounds = history.length := by
  rw [buildVerifiedClaims] at h
  rw [List.mem_map] at h
  obtain ⟨p, _, rfl⟩ := h
  rfl

end VerificationEngine

namespace ConflictResolver

lemma foldl_max_mem : ∀ (xs : List ℚ) (x : ℚ), xs.foldl max x ∈ x :: xs := by
  intro xs
  induction xs with
  | nil => intro x; simp
  | cons y ys ih =>
    intro x
    rw [List.foldl_cons]
    have h2 := ih (max x y)
    rcases List.mem_cons.mp h2 with h1 | h1
    · rw [h1]
      rcases max_choice x y with h | h <;> rw [h]
      · exact List.mem_cons_self _ _
      · exact List.mem_cons_of_mem _ (List.mem_cons_self _ _)
    · exact List.mem_cons_of_mem _ (List.mem_cons_of_mem _ h1)

lemma listMax_mem (l : List ℚ) (M : ℚ) (h : listMax l = some M) : M ∈ l := by
  cases l with
  | nil => cases h
  | cons x xs =>
    rw [listMax] at h
    injection h with h
    rw [← h]
    exact foldl_max_mem xs x

lemma credSpreadExceeds_find (ss : List Source)
    (h : credSpreadExceeds ss = true) :
    ∃ M, listMax (ss.map (fun s => s.credibilityScore)) = some M ∧
      ∃ s, ss.find? (fun s => s.credibilityScore == M) = some s := by
  rw [credSpreadExceeds] at h
  cases hM : listMax (ss.map fun s => s.credibilityScore) with
  | none =>
    rw [hM] at h
    cases hm : listMin (ss.map fun s => s.credibilityScore) <;>
      rw [hm] at h <;> cases h
  | some M =>
    refine ⟨M, rfl, ?_⟩
    have hMem : M ∈ ss.map (fun s => s.credibilityScore) := listMax_mem _ _ hM
    rw [List.mem_map] at hMem
    obtain ⟨s, hs, hsM⟩ := hMem
    have hsome : (ss.find? (fun s => s.credibilityScore == M)).isSome := by
      rw [List.find?_isSome]
      exact ⟨s, hs, by rw [hsM]; exact beq_self_eq_true M⟩
    obtain ⟨s', hs'⟩ := Option.isSome_iff_exists.mp hsome
    exact ⟨s', hs'⟩

lemma resolveTrueContradiction_high (c : Conflict)
    (h : credSpreadExceeds c.sources = true) :
    resolveTrueContradiction c = some
      { conflict := { c with resolved := true, resolution := none }
        strategy := "Trust higher credibility source with alternatives noted"
        resolved := true
        confidence := 7 / 10 } := by
  obtain ⟨M, hM, s, hs⟩ := credSpreadExceeds_find c.sources h
  rw [resolveTrueContradiction, if_pos h]
  simp only [hM, hs]

lemma resolveTrueContradiction_low (c : Conflict)
    (h : credSpreadExceeds c.sources = false) :
    resolveTrueContradiction c = some
      { conflict := { c with resolved := true, resolution := none }
        strategy := "Present multiple perspectives with equal weight"
        resolved := true
        confidence := 13 / 20 } := by
  rw [resolveTrueContradiction, if_neg (by rw [h]; exact Bool.false_ne_true)]

lemma resolveTemporalDifference_of_claims (c : Conflict)
    (h : c.claims ≠ []) :
    resolveTemporalDifference c = some
      { conflict := { c with resolved := true, resolution := none }
        strategy := "Use most recent data with time-series context"
        resolved := true
        confidence := 17 / 20 } := by
  rw [resolveTemporalDifference]
  cases hc : c.claims with
  | nil => exact absurd hc h
  | cons a l => rfl

end ConflictResolver

/-! ## Claim theorems -/

open VerificationEngine ConflictResolver

/-- C3: for every TRUE_CONTRADICTION conflict whose sources' maximum
credibility minus minimum credibility is exactly 0.20, `resolve` takes
the multiple-perspectives branch (strategy "Present multiple perspectives
with equal weight", resolved, confidence 0.65), never the
trust-higher-source branch: the comparison is strict `>`. -/
theorem c3_trueContradiction_boundary_multiple_perspectives (c : Conflict)
    (htype : c.type = "TRUE_CONTRADICTION") (M m : ℚ)
    (hM : listMax (c.sources.map (fun s => s.credibilityScore)) = some M)
    (hm : listMin (c.sources.map (fun s => s.credibilityScore)) = some m)
    (hdiff : M - m = 1 / 5) :
    ∃ r, resolve c = some r ∧
      r.strategy = "Present multiple perspectives with equal weight" ∧
      r.resolved = true ∧ r.confidence = 13 / 20 ∧
      r.strategy ≠ "Trust higher credibility source with alternatives noted" := by
  have hspread : credSpreadExceeds c.sources = false := by
    rw [credSpreadExceeds]
    simp only [hM, hm, hdiff]
    norm_num
  have hlow := resolveTrueContradiction_low c hspread
  refine ⟨{ conflict := { c with resolved := true, resolution := none }
            strategy := "Present multiple perspectives with equal weight"
            resolved := true
            confidence := 13 / 20 }, ?_, rfl, rfl, rfl, by
              show ¬(("Present multiple perspectives with equal weight" : String)
                = "Trust higher credibility source with alternatives noted")
              decide⟩
  rw [resolve]
  simp only [beq_iff_eq]
  rw [if_neg (by rw [htype]; decide), if_neg (by rw [htype]; decide),
    if_neg (by rw [htype]; decide), if_neg (by rw [htype]; decide), if_pos htype]
  exact hlow

/-- Witness for C3 at a concrete conflict (credibilities 0.9 and 0.7). -/
theorem c3_witness :
    ∃ r, resolve
        ⟨"TRUE_CONTRADICTION", [⟨"c1", "x", ["s1"]⟩],
          [⟨"s1", "u", "web", "t", none, 9 / 10, none⟩,
           ⟨"s2", "u", "web", "t", none, 7 / 10, none⟩],
          "", false, none, 4 / 5⟩ = some r ∧
      r.strategy = "Present multiple perspectives with equal weight" ∧
      r.resolved = true ∧ r.confidence = 13 / 20 ∧
      r.strategy ≠ "Trust higher credibility source with alternatives noted" :=
  c3_trueContradiction_boundary_multiple_perspectives _ rfl (9 / 10) (7 / 10)
    (by norm_num [listMax]) (by norm_num [listMin]) (by norm_num)

/-- C4: with at least two claims, any claim containing a scope keyword
(case-insensitively) makes `detectConflictType` return SCOPE_DIFFERENCE —
the scope check precedes the year check, so such input never classifies
as TEMPORAL_DIFFERENCE even when two distinct 20xx years occur. -/
theorem c4_scope_keyword_beats_years (claims : List Claim)
    (h2 : 2 ≤ claims.length)
    (hkw : ∃ c ∈ claims, ∃ kw ∈ (["only", "including", "excluding", "total",
        "average", "ceremony", "honeymoon"] : List String),
        includesLower c.text kw = true) :
    detectConflictType claims = "SCOPE_DIFFERENCE" ∧
    detectConflictType claims ≠ "TEMPORAL_DIFFERENCE" := by
  have hany : claims.any (fun c =>
      (["only", "including", "excluding", "total", "average", "ceremony",
        "honeymoon"] : List String).any (fun kw => includesLower c.text kw)) = true := by
    rw [List.any_eq_true]
    obtain ⟨c, hc, kw, hkwmem, hkwtrue⟩ := hkw
    exact ⟨c, hc, by rw [List.any_eq_true]; exact ⟨kw, hkwmem, hkwtrue⟩⟩
  have hmain : detectConflictType claims = "SCOPE_DIFFERENCE" := by
    simp only [detectConflictType]
    rw [if_neg (by omega), if_pos hany]
  exact ⟨hmain, by rw [hmain]; decide⟩

/-- Witness for C4: two claims that both carry distinct 20xx years, one
with the keyword "only" — still SCOPE_DIFFERENCE. -/
theorem c4_witness :
    2 ≤ ([⟨"c1", "In 2024 only the ceremony", ["s1"]⟩,
          ⟨"c2", "In 2023 it was different", ["s2"]⟩] : List Claim).length ∧
    detectConflictType
        [⟨"c1", "In 2024 only the ceremony", ["s1"]⟩,
         ⟨"c2", "In 2023 it was different", ["s2"]⟩] = "SCOPE_DIFFERENCE" ∧
    detectConflictType
        [⟨"c1", "In 2024 only the ceremony", ["s1"]⟩,
         ⟨"c2", "In 2023 it was different", ["s2"]⟩] ≠ "TEMPORAL_DIFFERENCE" :=
  ⟨by decide,
    c4_scope_keyword_beats_years _ (by decide)
      ⟨⟨"c1", "In 2024 only the ceremony", ["s1"]⟩, by decide,
        "only", by decide, by decide⟩⟩

/-- C5: `resolve` returns a result for every conflict carrying at least
one claim — all five known types, unknown types (manual-review branch)
and the empty source list included; a TRUE_CONTRADICTION with no sources
takes the multiple-perspectives branch (the `-Infinity` spread of the
empty `Math.max` spread never exceeds 0.2). -/
theorem c5_resolve_total (c : Conflict) (hclaims : c.claims ≠ []) :
    ∃ r, resolve c = some r ∧
      (c.type = "TRUE_CONTRADICTION" → c.sources = [] →
        r.strategy = "Present multiple perspectives with equal weight" ∧
        r.resolved = true ∧ r.confidence = 13 / 20) := by
  by_cases h1 : c.type = "SCOPE_DIFFERENCE"
  · refine ⟨resolveScopeDifference c, ?_, ?_⟩
    · rw [resolve]
      simp only [beq_iff_eq]
      rw [if_pos h1]
    · intro htc; rw [h1] at htc; exact absurd htc (by decide)
  by_cases h2 : c.type = "TEMPORAL_DIFFERENCE"
  · refine ⟨{ conflict := { c with resolved := true, resolution := none }
              strategy := "Use most recent data with time-series context"
              resolved := true
              confidence := 17 / 20 }, ?_, ?_⟩
    · rw [resolve]
      simp only [beq_iff_eq]
      rw [if_neg h1, if_pos h2]
      exact resolveTemporalDifference_of_claims c hclaims
    · intro htc; rw [h2] at htc; exact absurd htc (by decide)
  by_cases h3 : c.type = "STATISTICAL_METHOD"
  · refine ⟨resolveStatisticalMethod c, ?_, ?_⟩
    · rw [resolve]
      simp only [beq_iff_eq]
      rw [if_neg h1, if_neg h2, if_pos h3]
    · intro htc; rw [h3] at htc; exact absurd htc (by decide)
  by_cases h4 : c.type = "MEASUREMENT_UNIT"
  · refine ⟨resolveMeasurementUnit c, ?_, ?_⟩
    · rw [resolve]
      simp only [beq_iff_eq]
      rw [if_neg h1, if_neg h2, if_neg h3, if_pos h4]
    · intro htc; rw [h4] at htc; exact absurd htc (by decide)
  by_cases h5 : c.type = "TRUE_CONTRADICTION"
  · cases hspread : credSpreadExceeds c.sources with
    | true =>
      refine ⟨{ conflict := { c with resolved := true, resolution := none }
                strategy := "Trust higher credibility source with alternatives noted"
                resolved := true
                confidence := 7 / 10 }, ?_, ?_⟩
      · rw [resolve]
        simp only [beq_iff_eq]
        rw [if_neg h1, if_neg h2, if_neg h3, if_neg h4, if_pos h5]
        exact resolveTrueContradiction_high c hspread
      · intro _ hsources
        rw [hsources] at hspread
        exact absurd hspread (by decide)
    | false =>
      refine ⟨{ conflict := { c with resolved := true, resolution := none }
                strategy := "Present multiple perspectives with equal weight"
                resolved := true
                confidence := 13 / 20 }, ?_, ?_⟩
      · rw [resolve]
        simp only [beq_iff_eq]
        rw [if_neg h1, if_neg h2, if_neg h3, if_neg h4, if_pos h5]
        exact resolveTrueContradiction_low c hspread
      · intro _ _
        exact ⟨rfl, rfl, rfl⟩
  · refine ⟨resolveDefault c, ?_, ?_⟩
    · rw [resolve]
      simp only [beq_iff_eq]
      rw [if_neg h1, if_neg h2, if_neg h3, if_neg h4, if_neg h5]
    · intro htc; exact absurd htc h5

/-- Witness for C5: a TRUE_CONTRADICTION conflict with one claim and an
empty source list resolves to the multiple-perspectives branch. -/
theorem c5_witness :
    (([⟨"c1", "x", ["s1"]⟩] : List Claim) ≠ []) ∧
    ∃ r, resolve ⟨"TRUE_CONTRADICTION", [⟨"c1", "x", ["s1"]⟩], [],
        "", false, none, 4 / 5⟩ = some r ∧
      ("TRUE_CONTRADICTION" = "TRUE_CONTRADICTION" → ([] : List Source) = [] →
        r.strategy = "Present multiple perspectives with equal weight" ∧
        r.resolved = true ∧ r.confidence = 13 / 20) :=
  ⟨by decide, c5_resolve_total _ (by decide)⟩

namespace VerificationEngine

lemma round8_eq_scope (c : Conflict) (h : c.type = "SCOPE_DIFFERENCE") :
    resolveConflictRound8 c = { c with
      resolved := true
      resolution := some "Both values are correct for different scopes" } := by
  rw [resolveConflictRound8]
  simp only [beq_iff_eq]
  rw [if_pos h]

lemma round8_eq_temporal (c : Conflict) (h : c.type = "TEMPORAL_DIFFERENCE") :
    resolveConflictRound8 c = { c with
      resolved := true
      resolution := some "Use most recent data with year context" } := by
  rw [resolveConflictRound8]
  simp only [beq_iff_eq]
  rw [if_neg (by rw [h]; decide), if_pos h]

lemma round8_eq_statistical (c : Conflict) (h : c.type = "STATISTICAL_METHOD") :
    resolveConflictRound8 c = { c with
      resolved := true
      resolution := some "Present multiple statistical measures" } := by
  rw [resolveConflictRound8]
  simp only [beq_iff_eq]
  rw [if_neg (by rw [h]; decide), if_neg (by rw [h]; decide), if_pos h]

lemma round8_eq_measurement (c : Conflict) (h : c.type = "MEASUREMENT_UNIT") :
    resolveConflictRound8 c = { c with
      resolved := true
      resolution := some "Standardize units and note measurement basis" } := by
  rw [resolveConflictRound8]
  simp only [beq_iff_eq]
  rw [if_neg (by rw [h]; decide), if_neg (by rw [h]; decide),
    if_neg (by rw [h]; decide), if_pos h]

lemma round8_eq_tc_high (c : Conflict) (h : c.type = "TRUE_CONTRADICTION")
    (hs : ConflictResolver.credSpreadExceeds c.sources = true) :
    resolveConflictRound8 c = { c with
      resolved := true
      resolution := some "Trust higher credibility source" } := by
  rw [resolveConflictRound8]
  simp only [beq_iff_eq]
  rw [if_neg (by rw [h]; decide), if_neg (by rw [h]; decide),
    if_neg (by rw [h]; decide), if_neg (by rw [h]; decide), if_pos h, if_pos hs]

lemma round8_eq_tc_low (c : Conflict) (h : c.type = "TRUE_CONTRADICTION")
    (hs : ConflictResolver.credSpreadExceeds c.sources = false) :
    resolveConflictRound8 c = { c with
      resolved := false
      resolution := some "Multiple valid perspectives - present both" } := by
  rw [resolveConflictRound8]
  simp only [beq_iff_eq]
  rw [if_neg (by rw [h]; decide), if_neg (by rw [h]; decide),
    if_neg (by rw [h]; decide), if_neg (by rw [h]; decide), if_pos h,
    if_neg (by rw [hs]; exact Bool.false_ne_true)]

lemma round8_eq_unknown (c : Conflict)
    (h1 : c.type ≠ "SCOPE_DIFFERENCE") (h2 : c.type ≠ "TEMPORAL_DIFFERENCE")
    (h3 : c.type ≠ "STATISTICAL_METHOD") (h4 : c.type ≠ "MEASUREMENT_UNIT")
    (h5 : c.type ≠ "TRUE_CONTRADICTION") :
    resolveConflictRound8 c = c := by
  rw [resolveConflictRound8]
  simp only [beq_iff_eq]
  rw [if_neg h1, if_neg h2, if_neg h3, if_neg h4, if_neg h5]

end VerificationEngine

/-- C2 counterexample: a TRUE_CONTRADICTION conflict whose two sources
have equal credibility (spread 0 ≤ 0.20).  Round 8 marks it unresolved
(`resolved = false`) while §4.2's `ConflictResolver.resolve` marks it
resolved (`resolved = true`), so the two resolution paths do not agree on
the resolved flag. -/
theorem c2_counterexample :
    (VerificationEngine.resolveConflictRound8
        ⟨"TRUE_CONTRADICTION", [⟨"c1", "x", ["s1"]⟩],
          [⟨"s1", "u", "web", "t", none, 1 / 2, none⟩,
           ⟨"s2", "u", "web", "t", none, 1 / 2, none⟩],
          "", false, none, 4 / 5⟩).resolved = false ∧
    ((ConflictResolver.resolve
        ⟨"TRUE_CONTRADICTION", [⟨"c1", "x", ["s1"]⟩],
          [⟨"s1", "u", "web", "t", none, 1 / 2, none⟩,
           ⟨"s2", "u", "web", "t", none, 1 / 2, none⟩],
          "", false, none, 4 / 5⟩).map (fun r => r.resolved)) = some true := by
  have hspread : ConflictResolver.credSpreadExceeds
      [⟨"s1", "u", "web", "t", none, 1 / 2, none⟩,
       ⟨"s2", "u", "web", "t", none, 1 / 2, none⟩] = false := by
    rw [ConflictResolver.credSpreadExceeds]
    norm_num [ConflictResolver.listMax, ConflictResolver.listMin]
  constructor
  · rw [VerificationEngine.round8_eq_tc_low _ rfl hspread]
  · rw [ConflictResolver.resolve]
    simp only [beq_iff_eq]
    rw [if_neg (by decide), if_neg (by decide), if_neg (by decide),
      if_neg (by decide), if_pos (by decide)]
    rw [ConflictResolver.resolveTrueContradiction_low _ hspread]
    rfl

/-- C2 amended: for every conflict with at least one claim, initially
unresolved and without a resolution text, round 8 chooses the same branch
as §4.2's resolver (same TRUE_CONTRADICTION sub-branch, both governed by
the strict `> 0.2` spread test), and the resolved flags agree for every
type **except** TRUE_CONTRADICTION with spread ≤ 0.20, where round 8
leaves `resolved = false` while the resolver reports `resolved = true`
(confidence 0.65). -/
theorem c2_amended_round8_matches_resolver_branches (c : Conflict)
    (hclaims : c.claims ≠ []) (hres : c.resolved = false)
    (hresol : c.resolution = none) :
    ∃ r, ConflictResolver.resolve c = some r ∧
      ((VerificationEngine.resolveConflictRound8 c).resolution
          = some "Trust higher credibility source"
        ↔ r.strategy = "Trust higher credibility source with alternatives noted") ∧
      ((VerificationEngine.resolveConflictRound8 c).resolved = r.resolved
        ↔ ¬(c.type = "TRUE_CONTRADICTION" ∧
            ConflictResolver.credSpreadExceeds c.sources = false)) := by
  by_cases h1 : c.type = "SCOPE_DIFFERENCE"
  · rw [VerificationEngine.round8_eq_scope c h1]
    refine ⟨ConflictResolver.resolveScopeDifference c, ?_, ?_, ?_⟩
    · rw [ConflictResolver.resolve]
      simp only [beq_iff_eq]
      rw [if_pos h1]
    · exact iff_of_false (by
        show ¬((some "Both values are correct for different scopes" : Option String)
          = some "Trust higher credibility source")
        decide)
        (by
        show ¬(("Clarify scope and present all values with context" : String)
          = "Trust higher credibility source with alternatives noted")
        decide)
    · exact iff_of_true rfl (fun hh => absurd (h1.symm.trans hh.1) (by decide))
  by_cases h2 : c.type = "TEMPORAL_DIFFERENCE"
  · rw [VerificationEngine.round8_eq_temporal c h2]
    refine ⟨{ conflict := { c with resolved := true, resolution := none }
              strategy := "Use most recent data with time-series context"
              resolved := true
              confidence := 17 / 20 }, ?_, ?_, ?_⟩
    · rw [ConflictResolver.resolve]
      simp only [beq_iff_eq]
      rw [if_neg h1, if_pos h2]
      exact ConflictResolver.resolveTemporalDifference_of_claims c hclaims
    · exact iff_of_false (by
        show ¬((some "Use most recent data with year context" : Option String)
          = some "Trust higher credibility source")
        decide)
        (by
        show ¬(("Use most recent data with time-series context" : String)
          = "Trust higher credibility source with alternatives noted")
        decide)
    · exact iff_of_true rfl (fun hh => absurd (h2.symm.trans hh.1) (by decide))
  by_cases h3 : c.type = "STATISTICAL_METHOD"
  · rw [VerificationEngine.round8_eq_statistical c h3]
    refine ⟨ConflictResolver.resolveStatisticalMethod c, ?_, ?_, ?_⟩
    · rw [ConflictResolver.resolve]
      simp only [beq_iff_eq]
      rw [if_neg h1, if_neg h2, if_pos h3]
    · exact iff_of_false (by
        show ¬((some "Present multiple statistical measures" : Option String)
          = some "Trust higher credibility source")
        decide)
        (by
        show ¬(("Present all statistical measures with methodology notes" : String)
          = "Trust higher credibility source with alternatives noted")
        decide)
    · exact iff_of_true rfl (fun hh => absurd (h3.symm.trans hh.1) (by decide))
  by_cases h4 : c.type = "MEASUREMENT_UNIT"
  · rw [VerificationEngine.round8_eq_measurement c h4]
    refine ⟨ConflictResolver.resolveMeasurementUnit c, ?_, ?_, ?_⟩
    · rw [ConflictResolver.resolve]
      simp only [beq_iff_eq]
      rw [if_neg h1, if_neg h2, if_neg h3, if_pos h4]
    · exact iff_of_false (by
        show ¬((some "Standardize units and note measurement basis" : Option String)
          = some "Trust higher credibility source")
        decide)
        (by
        show ¬(("Clarify measurement basis and present all with context" : String)
          = "Trust higher credibility source with alternatives noted")
        decide)
    · exact iff_of_true rfl (fun hh => absurd (h4.symm.trans hh.1) (by decide))
  by_cases h5 : c.type = "TRUE_CONTRADICTION"
  · cases hspread : ConflictResolver.credSpreadExceeds c.sources with
    | true =>
      rw [VerificationEngine.round8_eq_tc_high c h5 hspread]
      refine ⟨{ conflict := { c with resolved := true, resolution := none }
                strategy := "Trust higher credibility source with alternatives noted"
                resolved := true
                confidence := 7 / 10 }, ?_, ?_, ?_⟩
      · rw [ConflictResolver.resolve]
        simp only [beq_iff_eq]
        rw [if_neg h1, if_neg h2, if_neg h3, if_neg h4, if_pos h5]
        exact ConflictResolver.resolveTrueContradiction_high c hspread
      · exact iff_of_true rfl rfl
      · exact iff_of_true rfl (fun hh => absurd hh.2 (by decide))
    | false =>
      rw [VerificationEngine.round8_eq_tc_low c h5 hspread]
      refine ⟨{ conflict := { c with resolved := true, resolution := none }
                strategy := "Present multiple perspectives with equal weight"
                resolved := true
                confidence := 13 / 20 }, ?_, ?_, ?_⟩
      · rw [ConflictResolver.resolve]
        simp only [beq_iff_eq]
        rw [if_neg h1, if_neg h2, if_neg h3, if_neg h4, if_pos h5]
        exact ConflictResolver.resolveTrueContradiction_low c hspread
      · exact iff_of_false (by
          show ¬((some "Multiple valid perspectives - present both" : Option String)
            = some "Trust higher credibility source")
          decide)
          (by
          show ¬(("Present multiple perspectives with equal weight" : String)
            = "Trust higher credibility source with alternatives noted")
          decide)
      · exact iff_of_false (by
          show ¬((false : Bool) = true)
          decide)
          (fun hh => hh ⟨h5, rfl⟩)
  · rw [VerificationEngine.round8_eq_unknown c h1 h2 h3 h4 h5]
    refine ⟨ConflictResolver.resolveDefault c, ?_, ?_, ?_⟩
    · rw [ConflictResolver.resolve]
      simp only [beq_iff_eq]
      rw [if_neg h1, if_neg h2, if_neg h3, if_neg h4, if_neg h5]
    · refine iff_of_false ?_ (by
        show ¬(("Manual review required" : String)
          = "Trust higher credibility source with alternatives noted")
        decide)
      rw [hresol]
      exact fun hh => Option.noConfusion hh
    · refine iff_of_true ?_ (fun hh => absurd hh.1 h5)
      rw [hres]
      rfl

/-- C2 amended witness at a concrete SCOPE_DIFFERENCE conflict. -/
theorem c2_amended_witness :
    (([⟨"c1", "only x", ["s1"]⟩] : List Claim) ≠ []) ∧
    ∃ r, ConflictResolver.resolve
        ⟨"SCOPE_DIFFERENCE", [⟨"c1", "only x", ["s1"]⟩], [],
          "", false, none, 17 / 20⟩ = some r ∧
      ((VerificationEngine.resolveConflictRound8
          ⟨"SCOPE_DIFFERENCE", [⟨"c1", "only x", ["s1"]⟩], [],
            "", false, none, 17 / 20⟩).resolution
          = some "Trust higher credibility source"
        ↔ r.strategy = "Trust higher credibility source with alternatives noted") ∧
      ((VerificationEngine.resolveConflictRound8
          ⟨"SCOPE_DIFFERENCE", [⟨"c1", "only x", ["s1"]⟩], [],
            "", false, none, 17 / 20⟩).resolved = r.resolved
        ↔ ¬(("SCOPE_DIFFERENCE" : String) = "TRUE_CONTRADICTION" ∧
            ConflictResolver.credSpreadExceeds [] = false)) :=
  ⟨by decide, c2_amended_round8_matches_resolver_branches _ (by decide) rfl rfl⟩

/-- C9: a supplied `credibilityScore` of exactly 0 is falsy in
JavaScript, so `CredibilityCalculator` treats it as absent: a web source
falls through to the domain heuristics (0.9 government, 0.85 educational,
0.8 allow-listed news, 0.6 otherwise — never below the 0.6 default), and
a user-provided source receives the 0.7 default; for a single web source
the sourceCredibility factor is exactly that heuristic value. -/
theorem c9_zero_credibility_score_treated_as_absent (s : Source)
    (h : s.credibilityScore = 0) :
    ((containsSeq "gov.".toList (lowerChars s.url)
        || containsSeq ".gov/".toList (lowerChars s.url)) = true →
      CredibilityCalculator.getWebCredibility s = 9 / 10) ∧
    ((containsSeq "gov.".toList (lowerChars s.url)
        || containsSeq ".gov/".toList (lowerChars s.url)) = false →
      (containsSeq "edu".toList (lowerChars s.url)
        || containsSeq "university".toList (lowerChars s.url)) = true →
      CredibilityCalculator.getWebCredibility s = 17 / 20) ∧
    ((containsSeq "gov.".toList (lowerChars s.url)
        || containsSeq ".gov/".toList (lowerChars s.url)) = false →
      (containsSeq "edu".toList (lowerChars s.url)
        || containsSeq "university".toList (lowerChars s.url)) = false →
      (containsSeq "nytimes".toList (lowerChars s.url)
        || containsSeq "reuters".toList (lowerChars s.url)
        || containsSeq "bbc".toList (lowerChars s.url)) = true →
      CredibilityCalculator.getWebCredibility s = 4 / 5) ∧
    ((containsSeq "gov.".toList (lowerChars s.url)
        || containsSeq ".gov/".toList (lowerChars s.url)) = false →
      (containsSeq "edu".toList (lowerChars s.url)
        || containsSeq "university".toList (lowerChars s.url)) = false →
      (containsSeq "nytimes".toList (lowerChars s.url)
        || containsSeq "reuters".toList (lowerChars s.url)
        || containsSeq "bbc".toList (lowerChars s.url)) = false →
      CredibilityCalculator.getWebCredibility s = 3 / 5) ∧
    3 / 5 ≤ CredibilityCalculator.getWebCredibility s ∧
    (∀ now : ℚ, s.type = "user-provided" →
      CredibilityCalculator.sourceTypeScore now s = 7 / 10) ∧
    (∀ now : ℚ, s.type = "web" →
      CredibilityCalculator.calculateSourceCredibility now [s]
        = CredibilityCalculator.getWebCredibility s) := by
  have hfalsy : CredibilityCalculator.jsTruthyNum s.credibilityScore = false := by
    simp [CredibilityCalculator.jsTruthyNum, h]
  have hweb : CredibilityCalculator.getWebCredibility s =
      (if (containsSeq "gov.".toList (lowerChars s.url)
          || containsSeq ".gov/".toList (lowerChars s.url)) = true then (9 : ℚ) / 10
       else if (containsSeq "edu".toList (lowerChars s.url)
          || containsSeq "university".toList (lowerChars s.url)) = true then 17 / 20
       else if (containsSeq "nytimes".toList (lowerChars s.url)
          || containsSeq "reuters".toList (lowerChars s.url)
          || containsSeq "bbc".toList (lowerChars s.url)) = true then 4 / 5
       else 3 / 5) := by
    rw [CredibilityCalculator.getWebCredibility,
      if_neg (by rw [hfalsy]; exact Bool.false_ne_true)]
  refine ⟨?_, ?_, ?_, ?_, ?_, ?_, ?_⟩
  · intro hgov
    rw [hweb, if_pos hgov]
  · intro hgov hedu
    rw [hweb, if_neg (by rw [hgov]; exact Bool.false_ne_true), if_pos hedu]
  · intro hgov hedu hnews
    rw [hweb, if_neg (by rw [hgov]; exact Bool.false_ne_true),
      if_neg (by rw [hedu]; exact Bool.false_ne_true), if_pos hnews]
  · intro hgov hedu hnews
    rw [hweb, if_neg (by rw [hgov]; exact Bool.false_ne_true),
      if_neg (by rw [hedu]; exact Bool.false_ne_true),
      if_neg (by rw [hnews]; exact Bool.false_ne_true)]
  · rw [hweb]
    split
    · norm_num
    split
    · norm_num
    split
    · norm_num
    · norm_num
  · intro now htype
    rw [CredibilityCalculator.sourceTypeScore]
    simp only [beq_iff_eq]
    rw [if_neg (by rw [htype]; decide), if_neg (by rw [htype]; decide),
      if_pos htype, if_neg (by rw [hfalsy]; exact Bool.false_ne_true)]
  · intro now htype
    rw [CredibilityCalculator.calculateSourceCredibility,
      if_neg (by norm_num)]
    simp only [List.map_cons, List.map_nil, List.sum_cons, List.sum_nil,
      List.length_cons, List.length_nil]
    rw [CredibilityCalculator.sourceTypeScore]
    simp only [beq_iff_eq]
    rw [if_neg (by rw [htype]; decide), if_pos htype]
    norm_num

/-- Witness for C9: a government-domain web source with a supplied score
of 0 scores 0.9, and the same source marked user-provided scores 0.7. -/
theorem c9_witness :
    CredibilityCalculator.getWebCredibility
        ⟨"s1", "https://data.gov/x", "web", "t", none, 0, none⟩ = 9 / 10 ∧
    CredibilityCalculator.sourceTypeScore 0
        ⟨"s1", "https://data.gov/x", "user-provided", "t", none, 0, none⟩
      = 7 / 10 :=
  ⟨(c9_zero_credibility_score_treated_as_absent _ rfl).1 (by decide),
    ((c9_zero_credibility_score_treated_as_absent _ rfl).2.2.2.2.2.1) 0 rfl⟩

/-- The engine configuration of C1: defaults with early exit disabled. -/
def cfgNoEarlyExit : VerificationEngine.VerificationConfig :=
  { VerificationEngine.defaultConfig with enableEarlyExit := false }

/-- The context of the C1 counterexample: two conflict-free claims
(no shared years, no digits, no scope keywords) over five sources. -/
def ctxC1 : VerificationEngine.VerificationContext :=
  ⟨"sess", "topic",
    [⟨"s1", "u1", "web", "zz", none, 1 / 2, none⟩,
     ⟨"s2", "u2", "web", "zz", none, 1 / 2, none⟩,
     ⟨"s3", "u3", "web", "zz", none, 1 / 2, none⟩,
     ⟨"s4", "u4", "web", "zz", none, 1 / 2, none⟩,
     ⟨"s5", "u5", "web", "zz", none, 1 / 2, none⟩],
    [⟨"c1", "alpha beta", ["s1"]⟩, ⟨"c2", "gamma delta", ["s2"]⟩], 1⟩

/-- C1 counterexample: with enableEarlyExit=false, two claims and five
sources, a run in which rounds 5–7 find no conflict skips round 8 and
returns 9 results, not 10. -/
theorem c1_counterexample :
    2 ≤ ctxC1.claims.length ∧ 5 ≤ ctxC1.sources.length ∧
    (VerificationEngine.verify cfgNoEarlyExit ctxC1 none none).results.length ≠ 10 := by
  decide

/-- C1 amended: with enableEarlyExit=false (other config at defaults, no
oracle) and ≥2 claims / ≥5 sources, `verify()` returns exactly 10
VerificationResult entries when rounds 5–7 detected at least one conflict
and exactly 9 otherwise (round 8 runs only if conflicts exist), and
`verifiedClaims` has exactly one entry per distinct input claim id (equal
to the claim count when ids are distinct). -/
theorem c1_amended_results_count (ctx : VerificationEngine.VerificationContext)
    (_h2 : 2 ≤ ctx.claims.length) (_h5 : 5 ≤ ctx.sources.length) :
    (VerificationEngine.verify cfgNoEarlyExit ctx none none).results.length
      = (if (VerificationEngine.verify cfgNoEarlyExit ctx none none).conflicts = []
         then 9 else 10) ∧
    (VerificationEngine.verify cfgNoEarlyExit ctx none none).verifiedClaims.length
      = ((ctx.claims.map (fun c => c.id)).toFinset).card := by
  constructor
  · rw [VerificationEngine.verify_results, VerificationEngine.verify_conflicts]
    exact VerificationEngine.pipelineState_results_count cfgNoEarlyExit
      (by decide) ctx none none
  · exact VerificationEngine.verify_verifiedClaims_length cfgNoEarlyExit ctx none none

/-- C1 amended witness at the concrete two-claim five-source context. -/
theorem c1_amended_witness :
    2 ≤ ctxC1.claims.length ∧ 5 ≤ ctxC1.sources.length ∧
    (VerificationEngine.verify cfgNoEarlyExit ctxC1 none none).results.length
      = (if (VerificationEngine.verify cfgNoEarlyExit ctxC1 none none).conflicts = []
         then 9 else 10) ∧
    (VerificationEngine.verify cfgNoEarlyExit ctxC1 none none).verifiedClaims.length
      = ((ctxC1.claims.map (fun c => c.id)).toFinset).card :=
  ⟨by decide, by decide,
    (c1_amended_results_count ctxC1 (by decide) (by decide)).1,
    (c1_amended_results_count ctxC1 (by decide) (by decide)).2⟩

/-- C6: in every run of `verify()`, every returned VerifiedClaim carries
`verificationRounds` equal to the length of the returned results list,
which in turn equals the returned `totalRounds` — independent of how many
per-round confidence entries the individual claim accumulated. -/
theorem c6_verificationRounds_eq_total (cfg : VerificationEngine.VerificationConfig)
    (ctx : VerificationEngine.VerificationContext)
    (o9 : Option (List VerificationEngine.OracleAssessment)) (o10 : Option ℚ) :
    (∀ vc ∈ (VerificationEngine.verify cfg ctx o9 o10).verifiedClaims,
      vc.verificationRounds
        = (VerificationEngine.verify cfg ctx o9 o10).results.length) ∧
    (VerificationEngine.verify cfg ctx o9 o10).results.length
      = (VerificationEngine.verify cfg ctx o9 o10).totalRounds := by
  constructor
  · intro vc hvc
    rw [VerificationEngine.verify_verifiedClaims] at hvc
    rw [VerificationEngine.verify_results]
    exact VerificationEngine.buildVerifiedClaims_verificationRounds _ _ _ hvc
  · rw [VerificationEngine.verify_results, VerificationEngine.verify_totalRounds,
      VerificationEngine.pipelineState_inv]
    omega

/-- The context of the C6 witness. -/
def ctxC6 : VerificationEngine.VerificationContext :=
  ⟨"sess", "topic", [⟨"s1", "u1", "web", "zz", none, 1 / 2, none⟩],
    [⟨"c1", "alpha beta", ["s1"]⟩], 1⟩

/-- C6 witness: the first verified claim of a concrete run records the
run's round count. -/
theorem c6_witness :
    ((VerificationEngine.verify VerificationEngine.defaultConfig ctxC6 none
        none).verifiedClaims.head (by decide)).verificationRounds
      = (VerificationEngine.verify VerificationEngine.defaultConfig ctxC6 none
          none).results.length :=
  (c6_verificationRounds_eq_total VerificationEngine.defaultConfig ctxC6
      none none).1 _ (List.head_mem _)

/-- C7: round 9 with no oracle (no key, or a failed call — both run the
same caught fallback, never surfacing an error): for every tracked claim
record it appends `min(1, supportingRatio × 1.2 + 0.3)` to that record's
confidence history, where supportingRatio is the record's supporting
source count over the total source count (0 with no sources), and the
round's averageConfidence is the running average of the prior rounds'
averageConfidence plus 0.01, capped at 1. -/
theorem c7_expert_fallback (ctx : VerificationEngine.VerificationContext)
    (cv : VerificationEngine.CvMap) (history : List VerificationResult)
    (hh : history ≠ []) :
    (VerificationEngine.executeExpertVerification ctx cv none history).1.averageConfidence
      = min 1 ((history.map (fun r => r.averageConfidence)).sum
          / (history.length : ℚ) + 1 / 100) ∧
    (∀ k d, mapGet cv k = some d →
      mapGet (VerificationEngine.executeExpertVerification ctx cv none history).2 k
        = some { d with roundResults := d.roundResults ++
            [min 1 ((if ctx.sources.length > 0 then
                  (d.supportingSources.length : ℚ) / (ctx.sources.length : ℚ)
                else 0) * (6 / 5) + 3 / 10)] }) := by
  constructor
  · show min 1 (VerificationEngine.averageHistoryConfidence history + 1 / 100) = _
    rw [VerificationEngine.averageHistoryConfidence,
      if_neg (by simpa [List.length_eq_zero] using hh)]
  · intro k d hget
    show mapGet (VerificationEngine.expertFallbackUpdate ctx cv) k = _
    rw [VerificationEngine.expertFallbackUpdate, mapGet_map_snd, hget]
    rfl

/-- C7 witness at a concrete map and history. -/
theorem c7_witness :
    (([⟨5, 1, 0, 1, [], []⟩] : List VerificationResult) ≠ []) ∧
    (VerificationEngine.executeExpertVerification ctxC1
        [("c1", ⟨⟨"c1", "alpha beta", ["s1"]⟩, [], [], []⟩)] none
        [⟨5, 1, 0, 1, [], []⟩]).1.averageConfidence
      = min 1 ((([⟨5, 1, 0, 1, [], []⟩] : List VerificationResult).map
            (fun r => r.averageConfidence)).sum / ((1 : ℕ) : ℚ) + 1 / 100) := by
  refine ⟨by decide, ?_⟩
  exact (c7_expert_fallback ctxC1
    [("c1", ⟨⟨"c1", "alpha beta", ["s1"]⟩, [], [], []⟩)]
    [⟨5, 1, 0, 1, [], []⟩] (by decide)).1

/-- C8: the pipeline `finalConfidence` returned by `verify()` is the
arithmetic mean of the verified claims' `finalConfidence` values, and 0
when there are none. -/
theorem c8_finalConfidence_mean (cfg : VerificationEngine.VerificationConfig)
    (ctx : VerificationEngine.VerificationContext)
    (o9 : Option (List VerificationEngine.OracleAssessment)) (o10 : Option ℚ) :
    (VerificationEngine.verify cfg ctx o9 o10).finalConfidence
      = (if (VerificationEngine.verify cfg ctx o9 o10).verifiedClaims = [] then 0
         else ((VerificationEngine.verify cfg ctx o9 o10).verifiedClaims.map
              (fun c => c.finalConfidence)).sum
            / ((VerificationEngine.verify cfg ctx o9 o10).verifiedClaims.length : ℚ)) := by
  rw [VerificationEngine.verify_finalConfidence,
    VerificationEngine.calculateFinalConfidence]
  simp only [List.length_eq_zero]

/-- C10: when two or more input claims share an id, `verify()` tracks
them in a single map record per id, so `verifiedClaims` has exactly one
entry per distinct id and is strictly shorter than the input claim
list. -/
theorem c10_duplicate_ids_collapse (cfg : VerificationEngine.VerificationConfig)
    (ctx : VerificationEngine.VerificationContext)
    (o9 : Option (List VerificationEngine.OracleAssessment)) (o10 : Option ℚ)
    (hdup : ¬ (ctx.claims.map (fun c => c.id)).Nodup) :
    (VerificationEngine.verify cfg ctx o9 o10).verifiedClaims.length
      = ((ctx.claims.map (fun c => c.id)).toFinset).card ∧
    (VerificationEngine.verify cfg ctx o9 o10).verifiedClaims.length
      < ctx.claims.length := by
  have hlen := VerificationEngine.verify_verifiedClaims_length cfg ctx o9 o10
  refine ⟨hlen, ?_⟩
  rw [hlen]
  have hle : ((ctx.claims.map (fun c => c.id)).toFinset).card
      ≤ (ctx.claims.map (fun c => c.id)).length := List.toFinset_card_le _
  have hne : ((ctx.claims.map (fun c => c.id)).toFinset).card
      ≠ (ctx.claims.map (fun c => c.id)).length := by
    intro heq
    exact hdup (Multiset.coe_nodup.mp
      (Multiset.toFinset_card_eq_card_iff_nodup.mp heq))
  have hml : (ctx.claims.map (fun c => c.id)).length = ctx.claims.length :=
    List.length_map _ _
  omega

/-- The context of the C10 witness: two claims sharing the id "c1". -/
def ctxC10 : VerificationEngine.VerificationContext :=
  ⟨"sess", "topic", [⟨"s1", "u1", "web", "zz", none, 1 / 2, none⟩],
    [⟨"c1", "alpha beta", ["s1"]⟩, ⟨"c1", "gamma delta", ["s1"]⟩], 1⟩

/-- C10 witness. -/
theorem c10_witness :
    (¬ (ctxC10.claims.map (fun c => c.id)).Nodup) ∧
    (VerificationEngine.verify VerificationEngine.defaultConfig ctxC10 none
        none).verifiedClaims.length
      = ((ctxC10.claims.map (fun c => c.id)).toFinset).card ∧
    (VerificationEngine.verify VerificationEngine.defaultConfig ctxC10 none
        none).verifiedClaims.length < ctxC10.claims.length :=
  ⟨by decide,
    (c10_duplicate_ids_collapse _ ctxC10 none none (by decide)).1,
    (c10_duplicate_ids_collapse _ ctxC10 none none (by decide)).2⟩
